import Mathlib

/-!
A verification development for the KubeStellar MCP server (Python).
The Python modules under `src/utils` and `src/tools/kubestellar_status`
are shallowly embedded as pure Lean functions: every external command
invocation is mediated by an explicit environment (a function from the
command's argument vector to the `(returncode, stdout, stderr)` triple
it would produce), and file-system or exception effects are made
explicit in the return types.  Python `int` becomes `Int`, Python
strings become `String`, Python lists and (insertion-ordered) dicts
become `List` and association lists.  The theorems at the end of the
file settle behavioural properties of those embeddings.
-/

/-! ## Models of the Python string methods used by the sources

The Python code manipulates command output with `str.strip`, `str.split`,
`str.splitlines`-style `split('\n')`, `str.replace`, `str.lower`,
`str.isdigit`, `in` (substring test), `str.join` and `int(...)`.  The
built-in Lean `String` operations do not reduce inside the kernel, so we
model these methods by structural recursion over `String.data`.
-/

/-- Whitespace as Python's `str.strip` / `str.split()` see it
(space, tab, newline, carriage return, vertical tab, form feed). -/
def pyIsSpace (c : Char) : Bool :=
  c = ' ' || c = '\t' || c = '\n' || c = '\r' || c = '\x0b' || c = '\x0c'

/-- Strip leading and trailing whitespace from a character list. -/
def pyStripChars (l : List Char) : List Char :=
  ((l.dropWhile pyIsSpace).reverse.dropWhile pyIsSpace).reverse

/-- Model of Python `s.strip()`. -/
def pyStrip (s : String) : String :=
  (pyStripChars s.data).asString

/-- Split a character list on a single separator character, keeping empty
parts, as Python's `s.split(sep)` does. -/
def pySplitCharAux (sep : Char) : List Char → List Char → List (List Char)
  | [], acc => [acc.reverse]
  | c :: rest, acc =>
    if c = sep then acc.reverse :: pySplitCharAux sep rest []
    else pySplitCharAux sep rest (c :: acc)

/-- Model of Python `s.split(sep)` for a one-character separator
(the sources only ever split on `'\n'` and `'.'`). -/
def pySplitChar (sep : Char) (s : String) : List String :=
  (pySplitCharAux sep s.data []).map List.asString

/-- Model of Python `s.split('\n')`. -/
def pySplitNl (s : String) : List String :=
  pySplitChar '\n' s

/-- Helper for `pySplitWs`: accumulate the current word (reversed). -/
def pySplitWsAux : List Char → List Char → List String
  | [], acc => if acc.isEmpty then [] else [acc.reverse.asString]
  | c :: rest, acc =>
    if pyIsSpace c then
      if acc.isEmpty then pySplitWsAux rest []
      else acc.reverse.asString :: pySplitWsAux rest []
    else pySplitWsAux rest (c :: acc)

/-- Model of Python `s.split()` (no argument): split on runs of
whitespace, dropping empty parts. -/
def pySplitWs (s : String) : List String :=
  pySplitWsAux s.data []

/-- Does `pat` occur as a contiguous sublist of the second list?  Models
Python's `pat in s` on strings. -/
def pyHasSub (pat : List Char) : List Char → Bool
  | [] => pat.isEmpty
  | c :: rest => pat.isPrefixOf (c :: rest) || pyHasSub pat rest

/-- Model of Python `pat in s` (substring containment). -/
def pyContains (s pat : String) : Bool :=
  pyHasSub pat.data s.data

/-- Replace every (non-overlapping, leftmost-first) occurrence of `pat`
by `repl`, as Python `s.replace(pat, repl)` does for nonempty `pat`.
The first argument counts characters of a just-matched occurrence still
to be skipped, so the recursion is structural in the subject list. -/
def pyReplaceAux (pat repl : List Char) : Nat → List Char → List Char
  | _, [] => []
  | n + 1, _ :: rest => pyReplaceAux pat repl n rest
  | 0, c :: rest =>
    if pat.isPrefixOf (c :: rest) then
      repl ++ pyReplaceAux pat repl (pat.length - 1) rest
    else c :: pyReplaceAux pat repl 0 rest

/-- Model of Python `s.replace(pat, repl)` for nonempty `pat`. -/
def pyReplace (s pat repl : String) : String :=
  (pyReplaceAux pat.data repl.data 0 s.data).asString

/-- Model of Python `s.lower()` (the sources only lower ASCII output). -/
def pyLower (s : String) : String :=
  (s.data.map Char.toLower).asString

/-- Model of Python `s.isdigit()` on the ASCII output the sources see:
nonempty and all decimal digits. -/
def pyIsDigit (s : String) : Bool :=
  !s.data.isEmpty && s.data.all Char.isDigit

/-- Numeric value of a list of decimal digit characters. -/
def pyDigitsVal (l : List Char) : Nat :=
  l.foldl (fun n c => n * 10 + (c.toNat - 48)) 0

/-- Model of Python `int(s)` on the inputs the sources can feed it:
optional surrounding whitespace, an optional sign, then decimal digits;
anything else raises `ValueError`, modelled as `none`. -/
def pyInt (s : String) : Option Int :=
  match pyStripChars s.data with
  | '-' :: ds =>
    if !ds.isEmpty && ds.all Char.isDigit then some (-(pyDigitsVal ds : Int)) else none
  | '+' :: ds =>
    if !ds.isEmpty && ds.all Char.isDigit then some (pyDigitsVal ds : Int) else none
  | ds =>
    if !ds.isEmpty && ds.all Char.isDigit then some (pyDigitsVal ds : Int) else none

/-- Model of Python `sep.join(parts)`. -/
def pyJoin (sep : String) : List String → String
  | [] => ""
  | [x] => x
  | x :: y :: rest => x ++ sep ++ pyJoin sep (y :: rest)

/-! ## utils/command_executor.py — `CommandExecutor.run_command`

`run_command` spawns a subprocess and awaits it under
`asyncio.wait_for(..., timeout)`.  Three things can happen at its
`try` block: the process completes with a return code and output; the
wait times out (`asyncio.TimeoutError`); or spawning/communication
raises some other exception (tool absent, permission denied, ...).
The outcome is the environment's choice; the embedding maps each
outcome to the `(returncode, stdout, stderr)` triple the Python
function returns. -/

/-- What the attempted subprocess execution does, as chosen by the
outside world. -/
inductive ExecOutcome where
  | completes (returncode : Int) (stdout stderr : String)
  | timesOut
  | raises (msg : String)
deriving DecidableEq

namespace CommandExecutor

/-- Embedding of `CommandExecutor.run_command` (src/utils/command_executor.py,
lines 27–59): the `try` body decodes and returns the process's triple; the
`except asyncio.TimeoutError` branch returns the synthetic timeout triple;
the blanket `except Exception as e` branch returns `(1, "", str(e))`. -/
def run_command (timeout : Nat) (outcome : ExecOutcome) : Int × String × String :=
  match outcome with
  | .completes returncode stdout stderr => (returncode, stdout, stderr)
  | .timesOut => (1, "", "Command timed out after " ++ toString timeout ++ " seconds")
  | .raises msg => (1, "", msg)

end CommandExecutor

/-- C1: the Process Runner's run operation never lets an error escape: a
timeout yields exactly `(1, "", "Command timed out after <N> seconds")`
with `<N>` the timeout value, and a spawn failure with message `msg`
yields exactly `(1, "", msg)`; every outcome produces a plain result
triple rather than a raised error. -/
theorem C1_run_command_errors_are_data (timeout : Nat) (msg : String) :
    CommandExecutor.run_command timeout ExecOutcome.timesOut =
      (1, "", "Command timed out after " ++ toString timeout ++ " seconds") ∧
    CommandExecutor.run_command timeout (ExecOutcome.raises msg) = (1, "", msg) := by
  exact ⟨rfl, rfl⟩

/-! ## utils/kubectl_helper.py — `KubectlHelper`

All methods are driven by `CommandExecutor.run_command`; since (by C1)
that call is total and returns a plain triple, we abstract the outside
world as a function `run : List String → Int × String × String` giving
the triple produced for each command argument vector. -/

/-- Shorthand for the command environment: the `(returncode, stdout,
stderr)` triple each command vector produces when run. -/
def CmdRun : Type := List String → Int × String × String

/-- Parse command output the way `get_contexts` / `get_cluster_info` do:
`[x.strip() for x in stdout.split('\n') if x.strip()]`. -/
def parseLines (stdout : String) : List String :=
  (pySplitNl stdout).filterMap fun x =>
    let s := pyStrip x
    if s = "" then none else some s

namespace KubectlHelper

/-- Embedding of `KubectlHelper.get_contexts`: list the kubectl context
names, or `[]` when the command fails. -/
def get_contexts (run : CmdRun) : List String :=
  let r := run ["kubectl", "config", "get-contexts", "-o=name"]
  if r.1 == 0 then parseLines r.2.1 else []

/-- Embedding of `KubectlHelper.check_namespace`: the namespace exists in
the context iff the `kubectl get ns` command succeeds and its stdout
contains the namespace name. -/
def check_namespace (run : CmdRun) (namespace_ context : String) : Bool :=
  let r := run ["kubectl", "get", "ns", namespace_, "--context", context,
                "--ignore-not-found"]
  r.1 == 0 && pyContains r.2.1 namespace_

/-- The record `get_cluster_info` fills in. -/
structure ClusterInfo where
  context : String
  accessible : Bool
  nodes : List String
  namespaces : List String
deriving DecidableEq

/-- The accessibility probe command of `get_cluster_info`. -/
def clusterInfoCmd (context : String) : List String :=
  ["kubectl", "cluster-info", "--context", context]

/-- The node-listing command of `get_cluster_info`. -/
def getNodesCmd (context : String) : List String :=
  ["kubectl", "get", "nodes", "--context", context, "-o=name"]

/-- The namespace-listing command of `get_cluster_info`. -/
def getNamespacesCmd (context : String) : List String :=
  ["kubectl", "get", "namespaces", "--context", context, "-o=name"]

/-- Embedding of `KubectlHelper.get_cluster_info`
(src/utils/kubectl_helper.py, lines 36–67).  Besides the `info` record it
returns the list of command vectors it issued, in order, so that
"no further commands are attempted" is part of the model. -/
def get_cluster_info (run : CmdRun) (context : String) :
    ClusterInfo × List (List String) :=
  let probe := run (clusterInfoCmd context)
  if probe.1 == 0 then
    let rNodes := run (getNodesCmd context)
    let rNss := run (getNamespacesCmd context)
    ({ context := context
       accessible := true
       nodes := if rNodes.1 == 0 then parseLines rNodes.2.1 else []
       namespaces := if rNss.1 == 0 then parseLines rNss.2.1 else [] },
     [clusterInfoCmd context, getNodesCmd context, getNamespacesCmd context])
  else
    ({ context := context, accessible := false, nodes := [], namespaces := [] },
     [clusterInfoCmd context])

end KubectlHelper

/-- C6: if `get_cluster_info`'s initial cluster-info probe fails, the
result is `accessible = false` with empty node and namespace lists and
the probe is the only command issued (no node, namespace, or
namespace-detail call is attempted); if the probe succeeds, exactly the
two follow-up list commands are issued, and each list is filled from its
own command independently, left empty when that command fails. -/
theorem C6_get_cluster_info_probe_gates_lists (run : CmdRun) (context : String) :
    ((run (KubectlHelper.clusterInfoCmd context)).1 ≠ 0 →
      KubectlHelper.get_cluster_info run context =
        ({ context := context, accessible := false, nodes := [], namespaces := [] },
         [KubectlHelper.clusterInfoCmd context])) ∧
    ((run (KubectlHelper.clusterInfoCmd context)).1 = 0 →
      (KubectlHelper.get_cluster_info run context).2 =
        [KubectlHelper.clusterInfoCmd context, KubectlHelper.getNodesCmd context,
         KubectlHelper.getNamespacesCmd context] ∧
      (KubectlHelper.get_cluster_info run context).1.accessible = true ∧
      (KubectlHelper.get_cluster_info run context).1.nodes =
        (if (run (KubectlHelper.getNodesCmd context)).1 == 0 then
          parseLines (run (KubectlHelper.getNodesCmd context)).2.1 else []) ∧
      (KubectlHelper.get_cluster_info run context).1.namespaces =
        (if (run (KubectlHelper.getNamespacesCmd context)).1 == 0 then
          parseLines (run (KubectlHelper.getNamespacesCmd context)).2.1 else [])) := by
  constructor
  · intro h
    have hb : ((run (KubectlHelper.clusterInfoCmd context)).1 == 0) = false := by
      simpa using h
    simp [KubectlHelper.get_cluster_info, hb]
  · intro h
    have hb : ((run (KubectlHelper.clusterInfoCmd context)).1 == 0) = true := by
      simpa using h
    simp [KubectlHelper.get_cluster_info, hb]

/-- A command environment in which the cluster-info probe for context
`nope` fails. -/
def runC6 : CmdRun := fun cmd =>
  if cmd = ["kubectl", "cluster-info", "--context", "nope"] then
    (1, "", "error: context \x22nope\x22 does not exist")
  else (0, "", "")

/-- Witness for C6 at a concrete environment: the probe for context
`nope` fails, and the whole call returns the inaccessible record having
issued only the probe. -/
theorem C6_get_cluster_info_probe_gates_lists_witness :
    KubectlHelper.get_cluster_info runC6 "nope" =
      ({ context := "nope", accessible := false, nodes := [], namespaces := [] },
       [KubectlHelper.clusterInfoCmd "nope"]) :=
  (C6_get_cluster_info_probe_gates_lists runC6 "nope").1 (by decide)

/-! ## tools/kubestellar_status/diagnostics.py — `DiagnosticsRunner`

Each `_check_*` coroutine returns a result dict with a `status`, a
`message` and optional `issues` / `recommendations` lists; the optional
lists are modelled as always-present lists defaulting to `[]` (for the
aggregator, extending by `[]` is a no-op, so the models coincide).  The
aggregator `diagnose_issues` runs the seven checks in order, and its
`try`/`except` converts any exception raised while awaiting a check into
a synthetic `error` entry.  The Python runtime's ability to raise out of
an awaited check (cancellation, interrupts, ...) is modelled by the
`exc` component of the environment: `exc name = some msg` means awaiting
the check called `name` raises an exception rendering as `msg`. -/

/-- Result dict of an individual diagnostic check. -/
structure CheckResult where
  status : String
  message : String
  issues : List String := []
  recommendations : List String := []
deriving DecidableEq

namespace DiagnosticsRunner

/-- Embedding of `_check_docker_status`. -/
def check_docker_status (run : CmdRun) : CheckResult :=
  let r := run ["docker", "ps"]
  if r.1 != 0 then
    { status := "fail"
      message := "Docker is not running or not accessible"
      issues := ["Docker daemon is not running"]
      recommendations := ["Start Docker daemon: sudo systemctl start docker"] }
  else { status := "pass", message := "Docker is running" }

/-- Embedding of `_check_kubectl_access`. -/
def check_kubectl_access (run : CmdRun) : CheckResult :=
  let r := run ["kubectl", "version", "--client"]
  if r.1 != 0 then
    { status := "fail"
      message := "kubectl is not accessible"
      issues := ["kubectl is not installed or not in PATH"]
      recommendations :=
        ["Install kubectl: https://kubernetes.io/docs/tasks/tools/install-kubectl/"] }
  else { status := "pass", message := "kubectl is accessible" }

/-- Embedding of `_check_kubestellar_contexts`. -/
def check_kubestellar_contexts (run : CmdRun) : CheckResult :=
  let contexts := KubectlHelper.get_contexts run
  let kubestellar_contexts := contexts.filter fun ctx =>
    (["kubeflex", "kind", "k3d", "wds", "its"]).any fun t => pyContains ctx t
  if kubestellar_contexts.isEmpty then
    { status := "warning"
      message := "No KubeStellar contexts found"
      issues :=
        ["No contexts containing \x27kubeflex\x27, \x27kind\x27, \x27k3d\x27, \x27wds\x27, or \x27its\x27 found"]
      recommendations := ["Run KubeStellar installation or demo environment setup"] }
  else
    { status := "pass"
      message := "Found " ++ toString kubestellar_contexts.length ++
        " KubeStellar contexts: " ++ pyJoin ", " kubestellar_contexts }

/-- Embedding of `_check_kubestellar_namespaces`.  The Python
`found_namespaces` dict (context → namespace → present) is an
association list here; a context reported twice by kubectl would map to
the same recomputed value, so list duplicates and dict overwrites are
observationally equal for the emptiness / any-missing tests below. -/
def check_kubestellar_namespaces (run : CmdRun) : CheckResult :=
  let contexts := KubectlHelper.get_contexts run
  let required_namespaces := ["wds1-system", "its1-system"]
  let found_namespaces : List (String × List (String × Bool)) :=
    (contexts.filter fun ctx =>
        (["kubeflex", "kind", "k3d"]).any fun t => pyContains ctx t).map
      fun ctx =>
        (ctx, required_namespaces.map fun ns =>
          (ns, KubectlHelper.check_namespace run ns ctx))
  if found_namespaces.isEmpty then
    { status := "warning"
      message := "No KubeStellar contexts to check namespaces in"
      issues := ["No suitable contexts found for namespace checking"] }
  else
    if found_namespaces.any (fun p => p.2.any fun q => !q.2) then
      { status := "warning"
        message := "Some KubeStellar namespaces are missing"
        issues := ["Required KubeStellar namespaces not found in some contexts"]
        recommendations :=
          ["Complete KubeStellar installation to create missing namespaces"] }
    else { status := "pass", message := "KubeStellar namespaces found" }

/-- Embedding of `_check_cluster_connectivity` (the 30-second timeout of
its probe is part of the environment's behaviour, not of the result). -/
def check_cluster_connectivity (run : CmdRun) : CheckResult :=
  let contexts := KubectlHelper.get_contexts run
  let inaccessible := contexts.filter fun ctx =>
    ((["kubeflex", "kind", "k3d", "cluster"]).any fun t => pyContains ctx t) &&
      (run ["kubectl", "cluster-info", "--context", ctx]).1 != 0
  if inaccessible.isEmpty then
    { status := "pass", message := "All clusters are accessible" }
  else
    { status := "warning"
      message := "Some clusters are not accessible: " ++ pyJoin ", " inaccessible
      issues := ["Cannot connect to clusters: " ++ pyJoin ", " inaccessible]
      recommendations := ["Check if clusters are running and kubeconfig is correct"] }

/-- Python's `str(list_of_ints)` rendering, used by
`_check_port_conflicts` in its f-strings. -/
def pyReprNatList (l : List Nat) : String :=
  "[" ++ pyJoin ", " (l.map toString) ++ "]"

/-- Embedding of `_check_port_conflicts`: a required port conflicts when
`lsof -i tcp:<port>` exits 0 (port in use). -/
def check_port_conflicts (run : CmdRun) : CheckResult :=
  let required_ports : List Nat := [9443]
  let conflicting_ports := required_ports.filter fun port =>
    (run ["lsof", "-i", "tcp:" ++ toString port]).1 == 0
  if conflicting_ports.isEmpty then
    { status := "pass", message := "No port conflicts detected" }
  else
    { status := "warning"
      message := "Port conflicts detected on: " ++ pyReprNatList conflicting_ports
      issues := ["Ports " ++ pyReprNatList conflicting_ports ++ " are in use"]
      recommendations := ["Stop services using these ports or use different ports"] }

/-- Issues contributed by the `df -h /` part of
`_check_resource_availability`: parse line 1, field 4 as a percentage and
flag usage above 90 (an unparsable percentage is silently skipped, as the
Python `try`/`except ValueError: pass` does). -/
def diskIssues (run : CmdRun) : List String :=
  let r := run ["df", "-h", "/"]
  if r.1 == 0 then
    let lines := pySplitNl (pyStrip r.2.1)
    if lines.length > 1 then
      let fields := pySplitWs (lines.getD 1 "")
      if fields.length ≥ 5 then
        let usage_percent := pyReplace (fields.getD 4 "") "%" ""
        match pyInt usage_percent with
        | some v => if v > 90 then ["Disk usage is high: " ++ usage_percent ++ "%"] else []
        | none => []
      else []
    else []
  else []

/-- Issues contributed by the `free -m` part of
`_check_resource_availability`: the output mentions `available` (case
folded) and some whole-number token strictly between 100 and 1000. -/
def memoryIssues (run : CmdRun) : List String :=
  let r := run ["free", "-m"]
  if r.1 == 0 then
    let lines := pySplitNl (pyStrip r.2.1)
    if lines.length > 1 then
      if pyContains (pyLower r.2.1) "available" &&
          ((pySplitWs r.2.1).any fun x =>
            pyIsDigit x && pyDigitsVal x.data > 100 && pyDigitsVal x.data < 1000) then
        ["Available memory may be low"]
      else []
    else []
  else []

/-- Embedding of `_check_resource_availability`: collect disk and memory
issues (in that order) with their matching recommendations. -/
def check_resource_availability (run : CmdRun) : CheckResult :=
  let issues := diskIssues run ++ memoryIssues run
  let recommendations :=
    (if (diskIssues run).isEmpty then [] else ["Free up disk space before installation"]) ++
    (if (memoryIssues run).isEmpty then [] else
      ["Consider freeing up memory before installation"])
  if issues.isEmpty then
    { status := "pass", message := "System resources look good" }
  else
    { status := "warning"
      message := "Some resource issues detected"
      issues := issues
      recommendations := recommendations }

/-- The battery of diagnostic checks, in the order `diagnose_issues`
declares them. -/
def diagChecks : List (String × (CmdRun → CheckResult)) :=
  [("docker_status", check_docker_status),
   ("kubectl_access", check_kubectl_access),
   ("kubestellar_contexts", check_kubestellar_contexts),
   ("kubestellar_namespaces", check_kubestellar_namespaces),
   ("cluster_connectivity", check_cluster_connectivity),
   ("port_conflicts", check_port_conflicts),
   ("resource_availability", check_resource_availability)]

/-- The `summary` sub-dict of the diagnostics report. -/
structure DiagSummary where
  total_checks : Nat
  passed : Nat
  warnings : Nat
  failures : Nat
deriving DecidableEq

/-- The diagnostics report dict. -/
structure DiagReport where
  status : String
  checks : List (String × CheckResult)
  issues_found : List String
  recommendations : List String
  summary : DiagSummary
deriving DecidableEq

/-- Environment of `diagnose_issues`: the command world plus, for each
check name, whether awaiting that check raises (and with what message). -/
structure DiagEnv where
  run : CmdRun
  exc : String → Option String

/-- The entry the aggregator's loop body stores for one check: the
synthetic `error` result when awaiting the check raised, else the
check's own result. -/
def checkOutcome (env : DiagEnv) (name : String) (f : CmdRun → CheckResult) :
    CheckResult :=
  match env.exc name with
  | some m => { status := "error", message := "Check failed: " ++ m }
  | none => f env.run

/-- One iteration of the aggregator's `for check_name, check_func` loop:
record the outcome, bump the matching summary counter
(`pass` / `warning` / anything else), and, for a non-raising check,
extend `issues_found` and `recommendations`. -/
def diagStep (env : DiagEnv) (name : String) (f : CmdRun → CheckResult)
    (d : DiagReport) : DiagReport :=
  match env.exc name with
  | some m =>
    { d with
      checks := d.checks ++ [(name, { status := "error", message := "Check failed: " ++ m })]
      summary := { d.summary with failures := d.summary.failures + 1 } }
  | none =>
    let r := f env.run
    let s := d.summary
    let s :=
      if r.status == "pass" then { s with passed := s.passed + 1 }
      else if r.status == "warning" then { s with warnings := s.warnings + 1 }
      else { s with failures := s.failures + 1 }
    { d with
      checks := d.checks ++ [(name, r)]
      summary := s
      issues_found := d.issues_found ++ r.issues
      recommendations := d.recommendations ++ r.recommendations }

/-- The aggregator's loop over the remaining checks. -/
def diagLoop (env : DiagEnv) : List (String × (CmdRun → CheckResult)) →
    DiagReport → DiagReport
  | [], d => d
  | (name, f) :: rest, d => diagLoop env rest (diagStep env name f d)

/-- Embedding of `DiagnosticsRunner.diagnose_issues`
(src/tools/kubestellar_status/diagnostics.py, lines 17–85): initialise
the report with `total_checks` set to the battery size, run every check
through the guarded loop, then derive the overall status from the
summary counters. -/
def diagnose_issues (env : DiagEnv) : DiagReport :=
  let init : DiagReport :=
    { status := "running"
      checks := []
      issues_found := []
      recommendations := []
      summary :=
        { total_checks := diagChecks.length, passed := 0, warnings := 0, failures := 0 } }
  let d := diagLoop env diagChecks init
  { d with
    status :=
      if d.summary.failures > 0 then "issues_found"
      else if d.summary.warnings > 0 then "warnings"
      else "healthy" }

end DiagnosticsRunner

namespace DiagnosticsRunner

/-- The aggregator loop records, in order, one outcome per check:
the synthetic `error` entry when awaiting the check raised, else the
check's own result. -/
lemma diagLoop_checks (env : DiagEnv) (cs : List (String × (CmdRun → CheckResult))) :
    ∀ d : DiagReport, (diagLoop env cs d).checks =
      d.checks ++ cs.map fun p => (p.1, checkOutcome env p.1 p.2) := by
  induction cs with
  | nil => intro d; simp [diagLoop]
  | cons p rest ih =>
    intro d
    obtain ⟨name, f⟩ := p
    simp only [diagLoop]
    rw [ih]
    cases h : env.exc name <;> simp [diagStep, checkOutcome, h]

/-- The aggregator loop never touches `total_checks`. -/
lemma diagLoop_total (env : DiagEnv) (cs : List (String × (CmdRun → CheckResult))) :
    ∀ d : DiagReport,
      (diagLoop env cs d).summary.total_checks = d.summary.total_checks := by
  induction cs with
  | nil => intro d; simp [diagLoop]
  | cons p rest ih =>
    intro d
    obtain ⟨name, f⟩ := p
    simp only [diagLoop]
    rw [ih]
    cases h : env.exc name
    · simp only [diagStep, h]
      split
      · rfl
      · split <;> rfl
    · simp [diagStep, h]

/-- Status of a result of `_check_docker_status`. -/
lemma check_docker_status_status (run : CmdRun) :
    (check_docker_status run).status = "pass" ∨
      (check_docker_status run).status = "warning" ∨
      (check_docker_status run).status = "fail" := by
  simp only [check_docker_status]
  split_ifs <;> simp

/-- Status of a result of `_check_kubectl_access`. -/
lemma check_kubectl_access_status (run : CmdRun) :
    (check_kubectl_access run).status = "pass" ∨
      (check_kubectl_access run).status = "warning" ∨
      (check_kubectl_access run).status = "fail" := by
  simp only [check_kubectl_access]
  split_ifs <;> simp

/-- Status of a result of `_check_kubestellar_contexts`. -/
lemma check_kubestellar_contexts_status (run : CmdRun) :
    (check_kubestellar_contexts run).status = "pass" ∨
      (check_kubestellar_contexts run).status = "warning" ∨
      (check_kubestellar_contexts run).status = "fail" := by
  simp only [check_kubestellar_contexts]
  split_ifs <;> simp

/-- Status of a result of `_check_kubestellar_namespaces`. -/
lemma check_kubestellar_namespaces_status (run : CmdRun) :
    (check_kubestellar_namespaces run).status = "pass" ∨
      (check_kubestellar_namespaces run).status = "warning" ∨
      (check_kubestellar_namespaces run).status = "fail" := by
  simp only [check_kubestellar_namespaces]
  split_ifs <;> simp

/-- Status of a result of `_check_cluster_connectivity`. -/
lemma check_cluster_connectivity_status (run : CmdRun) :
    (check_cluster_connectivity run).status = "pass" ∨
      (check_cluster_connectivity run).status = "warning" ∨
      (check_cluster_connectivity run).status = "fail" := by
  simp only [check_cluster_connectivity]
  split_ifs <;> simp

/-- Status of a result of `_check_port_conflicts`. -/
lemma check_port_conflicts_status (run : CmdRun) :
    (check_port_conflicts run).status = "pass" ∨
      (check_port_conflicts run).status = "warning" ∨
      (check_port_conflicts run).status = "fail" := by
  simp only [check_port_conflicts]
  split_ifs <;> simp

/-- Status of a result of `_check_resource_availability`. -/
lemma check_resource_availability_status (run : CmdRun) :
    (check_resource_availability run).status = "pass" ∨
      (check_resource_availability run).status = "warning" ∨
      (check_resource_availability run).status = "fail" := by
  simp only [check_resource_availability]
  split_ifs <;> simp

/-- Every check in the battery returns a result whose status is `pass`,
`warning` or `fail` (the `error` status is produced only by the
aggregator's exception handler). -/
lemma diagChecks_status (p : String × (CmdRun → CheckResult))
    (hp : p ∈ diagChecks) (run : CmdRun) :
    (p.2 run).status = "pass" ∨ (p.2 run).status = "warning" ∨
      (p.2 run).status = "fail" := by
  fin_cases hp
  exacts [check_docker_status_status run, check_kubectl_access_status run,
    check_kubestellar_contexts_status run, check_kubestellar_namespaces_status run,
    check_cluster_connectivity_status run, check_port_conflicts_status run,
    check_resource_availability_status run]

end DiagnosticsRunner

/-- C2: in every run of the diagnostics battery, a check whose awaited
execution raises is replaced by a synthetic `error`-status outcome keyed
by that check's name, and the battery is never aborted: the report
always contains exactly one outcome per check, keyed by the seven check
names in order, whichever checks raised. -/
theorem C2_diagnostics_error_isolation (env : DiagnosticsRunner.DiagEnv) :
    ((DiagnosticsRunner.diagnose_issues env).checks.map Prod.fst =
      DiagnosticsRunner.diagChecks.map Prod.fst) ∧
    (∀ name msg, env.exc name = some msg →
      name ∈ DiagnosticsRunner.diagChecks.map Prod.fst →
      (DiagnosticsRunner.diagnose_issues env).checks.lookup name =
        some { status := "error", message := "Check failed: " ++ msg }) := by
  have hchecks := DiagnosticsRunner.diagLoop_checks env DiagnosticsRunner.diagChecks
  constructor
  · show (DiagnosticsRunner.diagLoop env DiagnosticsRunner.diagChecks _).checks.map
      Prod.fst = _
    rw [hchecks]
    simp
  · intro name msg hexc hmem
    show (DiagnosticsRunner.diagLoop env DiagnosticsRunner.diagChecks _).checks.lookup
      name = _
    rw [hchecks]
    simp only [List.nil_append]
    simp only [DiagnosticsRunner.diagChecks, List.map_cons, List.map_nil,
      List.mem_cons, List.not_mem_nil, or_false] at hmem
    rcases hmem with h | h | h | h | h | h | h <;>
      subst h <;>
      simp [List.lookup, DiagnosticsRunner.diagChecks,
        DiagnosticsRunner.checkOutcome, hexc]

/-- Environment for the C2 witness: awaiting the `kubestellar_contexts`
check raises an exception rendering as `boom`; every command succeeds
with empty output. -/
def diagEnvW : DiagnosticsRunner.DiagEnv :=
  { run := fun _ => (0, "", "")
    exc := fun name => if name = "kubestellar_contexts" then some "boom" else none }

/-- Witness for C2: in the concrete environment where the
`kubestellar_contexts` check raises `boom`, the report still keys all
seven checks and maps `kubestellar_contexts` to the synthetic error
outcome. -/
theorem C2_diagnostics_error_isolation_witness :
    ((DiagnosticsRunner.diagnose_issues diagEnvW).checks.map Prod.fst =
      DiagnosticsRunner.diagChecks.map Prod.fst) ∧
    (DiagnosticsRunner.diagnose_issues diagEnvW).checks.lookup "kubestellar_contexts" =
      some { status := "error", message := "Check failed: boom" } :=
  ⟨(C2_diagnostics_error_isolation diagEnvW).1,
   (C2_diagnostics_error_isolation diagEnvW).2 "kubestellar_contexts" "boom"
     (by decide) (by decide)⟩

/-- C3: every diagnostics report has `summary.total_checks = 7`, equal to
the number of per-check entries; every recorded outcome's status is one
of `pass`, `warning`, `fail`, `error`; and the overall status is derived
deterministically from the summary counts: positive failures give
`issues_found`, else positive warnings give `warnings`, else `healthy`. -/
theorem C3_diagnostics_report_invariants (env : DiagnosticsRunner.DiagEnv) :
    (DiagnosticsRunner.diagnose_issues env).summary.total_checks = 7 ∧
    (DiagnosticsRunner.diagnose_issues env).checks.length = 7 ∧
    (∀ p ∈ (DiagnosticsRunner.diagnose_issues env).checks,
      p.2.status = "pass" ∨ p.2.status = "warning" ∨ p.2.status = "fail" ∨
        p.2.status = "error") ∧
    (DiagnosticsRunner.diagnose_issues env).status =
      (if (DiagnosticsRunner.diagnose_issues env).summary.failures > 0 then
        "issues_found"
       else if (DiagnosticsRunner.diagnose_issues env).summary.warnings > 0 then
        "warnings"
       else "healthy") := by
  refine ⟨?_, ?_, ?_, ?_⟩
  · show (DiagnosticsRunner.diagLoop _ _ _).summary.total_checks = 7
    rw [DiagnosticsRunner.diagLoop_total]
    rfl
  · show (DiagnosticsRunner.diagLoop _ _ _).checks.length = 7
    rw [DiagnosticsRunner.diagLoop_checks]
    simp [DiagnosticsRunner.diagChecks]
  · intro p hp
    have : p ∈ (DiagnosticsRunner.diagLoop env DiagnosticsRunner.diagChecks _).checks :=
      hp
    rw [DiagnosticsRunner.diagLoop_checks] at this
    simp only [List.nil_append, List.mem_map] at this
    obtain ⟨q, hq, rfl⟩ := this
    simp only [DiagnosticsRunner.checkOutcome]
    cases h : env.exc q.1 with
    | some m => simp [h]
    | none =>
      simp only [h]
      rcases DiagnosticsRunner.diagChecks_status q hq env.run with h1 | h1 | h1 <;>
        simp [h1]
  · rfl

/-! ## tools/kubestellar_status/status_checker.py — `KubeStellarStatusChecker`

`check_kubestellar_status` iterates the kubectl contexts in order,
examines each compatible one (name containing `kubeflex`, `kind` or
`k3d`), returns immediately from inside the loop on the first compatible,
accessible context having both required namespaces, and otherwise records
a partial status for the first accessible compatible context only
(guarded by `if not status["context_found"]`).  Its `try` block awaits
only `get_contexts`, `get_cluster_info` and `check_namespace`, all of
which are total over the command environment, so the `except` branch is
not part of the reachable model. -/

namespace KubeStellarStatusChecker

/-- The status dict built by `check_kubestellar_status`; the
`cluster_info` sub-dict is an insertion-ordered association list. -/
structure KSStatus where
  context : String
  context_found : Bool
  wds1_namespace : Bool
  its1_namespace : Bool
  all_ready : Bool
  message : String
  compatible_contexts : List String
  cluster_info : List (String × KubectlHelper.ClusterInfo)
deriving DecidableEq

/-- The compatible context types the checker looks for. -/
def compatible_types : List String := ["kubeflex", "kind", "k3d"]

/-- The loop's compatibility test:
`any(ctx_type in ctx for ctx_type in compatible_types)`. -/
def isCompatible (ctx : String) : Bool :=
  compatible_types.any fun t => pyContains ctx t

/-- Python dict assignment `d[k] = v` on an insertion-ordered association
list: overwrite in place when the key exists, else append. -/
def dictSet {α : Type} (k : String) (v : α) (l : List (String × α)) :
    List (String × α) :=
  if l.any (fun p => p.1 == k) then
    l.map fun p => if p.1 == k then (k, v) else p
  else l ++ [(k, v)]

/-- Message recorded when a context is fully ready. -/
def readyMessage (ctx : String) : String :=
  "KubeStellar ready on context " ++ ctx ++ " with all required namespaces"

/-- Message recorded by the partial-status update, listing the missing
namespaces. -/
def partialMessage (wds1_exists its1_exists : Bool) (ctx : String) : String :=
  "Compatible context " ++ ctx ++ " found, but missing namespaces: " ++
    pyJoin ", "
      ((if !wds1_exists then ["wds1-system"] else []) ++
        (if !its1_exists then ["its1-system"] else []))

/-- The `for ctx in contexts` loop of `check_kubestellar_status`
(src/tools/kubestellar_status/status_checker.py, lines 40–89): an
incompatible context is skipped; a compatible one is appended to
`compatible_contexts` and its cluster info recorded; an inaccessible one
is then skipped (`continue`); a fully ready one makes the loop `return`
at once; otherwise the partial-status update runs only while
`context_found` is still false. -/
def statusLoop (run : CmdRun) : List String → KSStatus → KSStatus
  | [], st => st
  | ctx :: rest, st =>
    if isCompatible ctx then
      let info := (KubectlHelper.get_cluster_info run ctx).1
      let st1 :=
        { st with
          compatible_contexts := st.compatible_contexts ++ [ctx]
          cluster_info := dictSet ctx info st.cluster_info }
      if !info.accessible then statusLoop run rest st1
      else
        let wds1_exists := KubectlHelper.check_namespace run "wds1-system" ctx
        let its1_exists := KubectlHelper.check_namespace run "its1-system" ctx
        if wds1_exists && its1_exists then
          { st1 with
            context := ctx
            context_found := true
            wds1_namespace := true
            its1_namespace := true
            all_ready := true
            message := readyMessage ctx }
        else
          statusLoop run rest
            (if !st1.context_found then
              { st1 with
                context := ctx
                context_found := true
                wds1_namespace := wds1_exists
                its1_namespace := its1_exists
                message := partialMessage wds1_exists its1_exists ctx }
             else st1)
    else statusLoop run rest st

/-- The initial status dict of `check_kubestellar_status`. -/
def initStatus : KSStatus :=
  { context := ""
    context_found := false
    wds1_namespace := false
    its1_namespace := false
    all_ready := false
    message := "No compatible KubeStellar context found"
    compatible_contexts := []
    cluster_info := [] }

/-- Embedding of `KubeStellarStatusChecker.check_kubestellar_status`. -/
def check_kubestellar_status (run : CmdRun) : KSStatus :=
  let contexts := KubectlHelper.get_contexts run
  let st := statusLoop run contexts initStatus
  if st.compatible_contexts.isEmpty then
    { st with
      message := "No compatible KubeStellar contexts found. Looking for contexts containing \x27kubeflex\x27, \x27kind\x27, or \x27k3d\x27" }
  else st

/-- A context is fully ready when it is compatible, accessible and has
both required namespaces — exactly the conditions under which the loop
returns early. -/
def isReady (run : CmdRun) (ctx : String) : Bool :=
  isCompatible ctx && (KubectlHelper.get_cluster_info run ctx).1.accessible &&
    KubectlHelper.check_namespace run "wds1-system" ctx &&
    KubectlHelper.check_namespace run "its1-system" ctx

/-- If every context in `l1` fails the readiness test and `c` passes it,
the loop run on `l1 ++ c :: l2` stops at `c`: it reports `c` fully ready
and has examined (appended to `compatible_contexts`) exactly the
compatible part of `l1` followed by `c` — nothing from `l2`. -/
lemma statusLoop_ready (run : CmdRun) (c : String) (l2 : List String)
    (hc : isReady run c = true) :
    ∀ l1 : List String, (∀ x ∈ l1, isReady run x = false) →
      ∀ st : KSStatus,
        (statusLoop run (l1 ++ c :: l2) st).context = c ∧
        (statusLoop run (l1 ++ c :: l2) st).context_found = true ∧
        (statusLoop run (l1 ++ c :: l2) st).wds1_namespace = true ∧
        (statusLoop run (l1 ++ c :: l2) st).its1_namespace = true ∧
        (statusLoop run (l1 ++ c :: l2) st).all_ready = true ∧
        (statusLoop run (l1 ++ c :: l2) st).compatible_contexts =
          st.compatible_contexts ++ l1.filter isCompatible ++ [c] := by
  have hc' := hc
  simp only [isReady, Bool.and_eq_true] at hc'
  obtain ⟨⟨⟨hcomp, hacc⟩, hw⟩, hi⟩ := hc'
  intro l1
  induction l1 with
  | nil =>
    intro _ st
    simp [statusLoop, hcomp, hacc, hw, hi]
  | cons x l1 ih =>
    intro hl1 st
    have hx : isReady run x = false := hl1 x (List.mem_cons_self x l1)
    have hrest : ∀ y ∈ l1, isReady run y = false := fun y hy =>
      hl1 y (List.mem_cons_of_mem x hy)
    rw [List.cons_append]
    by_cases hcx : isCompatible x = true
    · by_cases hax : (KubectlHelper.get_cluster_info run x).1.accessible = true
      · have hwix : (KubectlHelper.check_namespace run "wds1-system" x &&
            KubectlHelper.check_namespace run "its1-system" x) = false := by
          cases h1 : KubectlHelper.check_namespace run "wds1-system" x with
          | false => simp
          | true =>
            cases h2 : KubectlHelper.check_namespace run "its1-system" x with
            | false => simp
            | true => simp [isReady, hcx, hax, h1, h2] at hx
        by_cases hf : st.context_found = true
        · simpa [statusLoop, hcx, hax, hwix, hf, List.filter_cons,
            List.append_assoc] using ih hrest
            { st with
              compatible_contexts := st.compatible_contexts ++ [x]
              cluster_info :=
                dictSet x (KubectlHelper.get_cluster_info run x).1 st.cluster_info }
        · have hf' : st.context_found = false := by simpa using hf
          simpa [statusLoop, hcx, hax, hwix, hf', List.filter_cons,
            List.append_assoc] using ih hrest
            { st with
              context := x
              context_found := true
              wds1_namespace := KubectlHelper.check_namespace run "wds1-system" x
              its1_namespace := KubectlHelper.check_namespace run "its1-system" x
              message :=
                partialMessage (KubectlHelper.check_namespace run "wds1-system" x)
                  (KubectlHelper.check_namespace run "its1-system" x) x
              compatible_contexts := st.compatible_contexts ++ [x]
              cluster_info :=
                dictSet x (KubectlHelper.get_cluster_info run x).1 st.cluster_info }
      · have hax' : (KubectlHelper.get_cluster_info run x).1.accessible = false := by
          simpa using hax
        simpa [statusLoop, hcx, hax', List.filter_cons, List.append_assoc] using
          ih hrest
            { st with
              compatible_contexts := st.compatible_contexts ++ [x]
              cluster_info :=
                dictSet x (KubectlHelper.get_cluster_info run x).1 st.cluster_info }
    · have hcx' : isCompatible x = false := by simpa using hcx
      simpa [statusLoop, hcx', List.filter_cons] using ih hrest st

end KubeStellarStatusChecker

/-- C4: if the context list is `l1 ++ c :: l2` where `c` is the first
context that is compatible, accessible and has both required namespaces
(no member of `l1` is), the checker reports exactly `c` as the ready
context with `all_ready = true`, and its `compatible_contexts` record
shows that no context after `c` was examined: it is the compatible part
of `l1` followed by `c`, with nothing from `l2`. -/
theorem C4_status_checker_find_first (run : CmdRun) (l1 : List String)
    (c : String) (l2 : List String)
    (h : KubectlHelper.get_contexts run = l1 ++ c :: l2)
    (hc : KubeStellarStatusChecker.isReady run c = true)
    (hl1 : ∀ x ∈ l1, KubeStellarStatusChecker.isReady run x = false) :
    (KubeStellarStatusChecker.check_kubestellar_status run).context = c ∧
    (KubeStellarStatusChecker.check_kubestellar_status run).all_ready = true ∧
    (KubeStellarStatusChecker.check_kubestellar_status run).context_found = true ∧
    (KubeStellarStatusChecker.check_kubestellar_status run).compatible_contexts =
      l1.filter KubeStellarStatusChecker.isCompatible ++ [c] := by
  have key := KubeStellarStatusChecker.statusLoop_ready run c l2 hc l1 hl1
    KubeStellarStatusChecker.initStatus
  simp only [KubeStellarStatusChecker.check_kubestellar_status, h]
  split
  · exact ⟨key.1, key.2.2.2.2.1, key.2.1, by
      show (KubeStellarStatusChecker.statusLoop run (l1 ++ c :: l2)
        KubeStellarStatusChecker.initStatus).compatible_contexts = _
      rw [key.2.2.2.2.2]; simp [KubeStellarStatusChecker.initStatus]⟩
  · exact ⟨key.1, key.2.2.2.2.1, key.2.1, by
      show (KubeStellarStatusChecker.statusLoop run (l1 ++ c :: l2)
        KubeStellarStatusChecker.initStatus).compatible_contexts = _
      rw [key.2.2.2.2.2]; simp [KubeStellarStatusChecker.initStatus]⟩

/-- Command environment for the C5 counterexample: contexts `kind-a` and
`kind-b`, both compatible and accessible, `kind-a` having only
`wds1-system` and `kind-b` having only `its1-system` — so none is fully
ready and `kind-b` is the last compatible partial context examined. -/
def runC5 : CmdRun := fun cmd =>
  if cmd = ["kubectl", "config", "get-contexts", "-o=name"] then
    (0, "kind-a\nkind-b", "")
  else if cmd = ["kubectl", "get", "ns", "wds1-system", "--context", "kind-a",
      "--ignore-not-found"] then
    (0, "wds1-system   Active", "")
  else if cmd = ["kubectl", "get", "ns", "its1-system", "--context", "kind-a",
      "--ignore-not-found"] then
    (0, "", "")
  else if cmd = ["kubectl", "get", "ns", "wds1-system", "--context", "kind-b",
      "--ignore-not-found"] then
    (0, "", "")
  else if cmd = ["kubectl", "get", "ns", "its1-system", "--context", "kind-b",
      "--ignore-not-found"] then
    (0, "its1-system   Active", "")
  else (0, "", "")

/-- Counterexample to C5 as stated: in `runC5` no context is fully ready
and the last compatible-partial context examined is `kind-b` (compatible,
accessible, `wds1-system` absent, `its1-system` present), yet the
returned partial status carries the data of the FIRST partial context
`kind-a` (`context = "kind-a"`, `wds1 = true`, `its1 = false`), not
`kind-b`'s — the in-loop update is guarded by
`if not status["context_found"]`, so it is first-wins, not
last-wins-by-unconditional-overwrite. -/
theorem C5_last_partial_wins_counterexample :
    (∀ x ∈ KubectlHelper.get_contexts runC5,
      KubeStellarStatusChecker.isReady runC5 x = false) ∧
    (KubeStellarStatusChecker.check_kubestellar_status runC5).compatible_contexts =
      ["kind-a", "kind-b"] ∧
    KubeStellarStatusChecker.isCompatible "kind-b" = true ∧
    (KubectlHelper.get_cluster_info runC5 "kind-b").1.accessible = true ∧
    KubectlHelper.check_namespace runC5 "wds1-system" "kind-b" = false ∧
    KubectlHelper.check_namespace runC5 "its1-system" "kind-b" = true ∧
    (KubeStellarStatusChecker.check_kubestellar_status runC5).context = "kind-a" ∧
    (KubeStellarStatusChecker.check_kubestellar_status runC5).wds1_namespace = true ∧
    (KubeStellarStatusChecker.check_kubestellar_status runC5).its1_namespace = false ∧
    (KubeStellarStatusChecker.check_kubestellar_status runC5).all_ready = false := by
  decide

namespace KubeStellarStatusChecker

/-- Once `context_found` is set, a tail of the iteration containing no
fully ready context leaves the partial-status fields (`context`,
`context_found`, `wds1_namespace`, `its1_namespace`, `all_ready`,
`message`) untouched; only `compatible_contexts` (and `cluster_info`)
can grow. -/
lemma statusLoop_preserve (run : CmdRun) :
    ∀ (l : List String) (st : KSStatus), st.context_found = true →
      (∀ x ∈ l, isReady run x = false) →
      (statusLoop run l st).context = st.context ∧
      (statusLoop run l st).context_found = true ∧
      (statusLoop run l st).wds1_namespace = st.wds1_namespace ∧
      (statusLoop run l st).its1_namespace = st.its1_namespace ∧
      (statusLoop run l st).all_ready = st.all_ready ∧
      (statusLoop run l st).message = st.message ∧
      ∃ l', (statusLoop run l st).compatible_contexts =
        st.compatible_contexts ++ l' := by
  intro l
  induction l with
  | nil =>
    intro st hf _
    exact ⟨rfl, hf, rfl, rfl, rfl, rfl, [], by simp [statusLoop]⟩
  | cons x l ih =>
    intro st hf hl
    have hx : isReady run x = false := hl x (List.mem_cons_self x l)
    have hrest : ∀ y ∈ l, isReady run y = false := fun y hy =>
      hl y (List.mem_cons_of_mem x hy)
    by_cases hcx : isCompatible x = true
    · by_cases hax : (KubectlHelper.get_cluster_info run x).1.accessible = true
      · have hwix : (KubectlHelper.check_namespace run "wds1-system" x &&
            KubectlHelper.check_namespace run "its1-system" x) = false := by
          cases h1 : KubectlHelper.check_namespace run "wds1-system" x with
          | false => simp
          | true =>
            cases h2 : KubectlHelper.check_namespace run "its1-system" x with
            | false => simp
            | true => simp [isReady, hcx, hax, h1, h2] at hx
        have step : statusLoop run (x :: l) st = statusLoop run l
            { st with
              compatible_contexts := st.compatible_contexts ++ [x]
              cluster_info :=
                dictSet x (KubectlHelper.get_cluster_info run x).1 st.cluster_info } := by
          simp [statusLoop, hcx, hax, hwix, hf]
        rw [step]
        obtain ⟨e1, e2, e3, e4, e5, e6, l', e7⟩ := ih
          { st with
            compatible_contexts := st.compatible_contexts ++ [x]
            cluster_info :=
              dictSet x (KubectlHelper.get_cluster_info run x).1 st.cluster_info }
          hf hrest
        exact ⟨e1, e2, e3, e4, e5, e6, [x] ++ l', by rw [e7]; simp⟩
      · have hax' : (KubectlHelper.get_cluster_info run x).1.accessible = false := by
          simpa using hax
        have step : statusLoop run (x :: l) st = statusLoop run l
            { st with
              compatible_contexts := st.compatible_contexts ++ [x]
              cluster_info :=
                dictSet x (KubectlHelper.get_cluster_info run x).1 st.cluster_info } := by
          simp [statusLoop, hcx, hax']
        rw [step]
        obtain ⟨e1, e2, e3, e4, e5, e6, l', e7⟩ := ih
          { st with
            compatible_contexts := st.compatible_contexts ++ [x]
            cluster_info :=
              dictSet x (KubectlHelper.get_cluster_info run x).1 st.cluster_info }
          hf hrest
        exact ⟨e1, e2, e3, e4, e5, e6, [x] ++ l', by rw [e7]; simp⟩
    · have hcx' : isCompatible x = false := by simpa using hcx
      have step : statusLoop run (x :: l) st = statusLoop run l st := by
        simp [statusLoop, hcx']
      rw [step]
      exact ih st hf hrest

/-- Contexts that are incompatible, or compatible but inaccessible, are
passed over without touching the partial-status fields: running the loop
on `l ++ rest` is running it on `rest` from a state whose scalar fields
are unchanged. -/
lemma statusLoop_skip (run : CmdRun) :
    ∀ (l rest : List String) (st : KSStatus),
      (∀ x ∈ l, ¬(isCompatible x = true ∧
        (KubectlHelper.get_cluster_info run x).1.accessible = true)) →
      ∃ st' : KSStatus, statusLoop run (l ++ rest) st = statusLoop run rest st' ∧
        st'.context = st.context ∧ st'.context_found = st.context_found ∧
        st'.wds1_namespace = st.wds1_namespace ∧
        st'.its1_namespace = st.its1_namespace ∧
        st'.all_ready = st.all_ready ∧ st'.message = st.message ∧
        ∃ l', st'.compatible_contexts = st.compatible_contexts ++ l' := by
  intro l
  induction l with
  | nil =>
    intro rest st _
    exact ⟨st, by simp, rfl, rfl, rfl, rfl, rfl, rfl, [], by simp⟩
  | cons x l ih =>
    intro rest st hl
    have hx := hl x (List.mem_cons_self x l)
    have hrest : ∀ y ∈ l, ¬(isCompatible y = true ∧
        (KubectlHelper.get_cluster_info run y).1.accessible = true) := fun y hy =>
      hl y (List.mem_cons_of_mem x hy)
    by_cases hcx : isCompatible x = true
    · have hax' : (KubectlHelper.get_cluster_info run x).1.accessible = false := by
        cases h : (KubectlHelper.get_cluster_info run x).1.accessible with
        | false => rfl
        | true => exact absurd ⟨hcx, h⟩ hx
      have step : statusLoop run ((x :: l) ++ rest) st = statusLoop run (l ++ rest)
          { st with
            compatible_contexts := st.compatible_contexts ++ [x]
            cluster_info :=
              dictSet x (KubectlHelper.get_cluster_info run x).1 st.cluster_info } := by
        simp [statusLoop, hcx, hax']
      obtain ⟨st', e0, e1, e2, e3, e4, e5, e6, l', e7⟩ := ih rest
        { st with
          compatible_contexts := st.compatible_contexts ++ [x]
          cluster_info :=
            dictSet x (KubectlHelper.get_cluster_info run x).1 st.cluster_info }
        hrest
      exact ⟨st', by rw [step, e0], e1, e2, e3, e4, e5, e6, [x] ++ l',
        by rw [e7]; simp⟩
    · have hcx' : isCompatible x = false := by simpa using hcx
      have step : statusLoop run ((x :: l) ++ rest) st =
          statusLoop run (l ++ rest) st := by
        simp [statusLoop, hcx']
      obtain ⟨st', e0, e1, e2, e3, e4, e5, e6, l', e7⟩ := ih rest st hrest
      exact ⟨st', by rw [step, e0], e1, e2, e3, e4, e5, e6, l', e7⟩

end KubeStellarStatusChecker

/-- C5 (amended): when no compatible context achieves full readiness, the
returned partial status (context, context_found, wds1_namespace,
its1_namespace, message) is that of the FIRST compatible and accessible
context examined — the in-loop update is guarded by
`if not status["context_found"]`, so it is first-wins, and compatible but
inaccessible contexts never set the partial fields.  The concrete
scenario of the claim is unaffected: for contexts
`["kind-foo", "prod"]` with `kind-foo` accessible and only `wds1-system`
present, the result carries `kind-foo`'s data. -/
theorem C5_amended_first_partial_wins (run : CmdRun) (l1 : List String)
    (c : String) (l2 : List String)
    (h : KubectlHelper.get_contexts run = l1 ++ c :: l2)
    (hnone : ∀ x ∈ KubectlHelper.get_contexts run,
      KubeStellarStatusChecker.isReady run x = false)
    (hcomp : KubeStellarStatusChecker.isCompatible c = true)
    (hacc : (KubectlHelper.get_cluster_info run c).1.accessible = true)
    (hl1 : ∀ x ∈ l1, ¬(KubeStellarStatusChecker.isCompatible x = true ∧
      (KubectlHelper.get_cluster_info run x).1.accessible = true)) :
    (KubeStellarStatusChecker.check_kubestellar_status run).context = c ∧
    (KubeStellarStatusChecker.check_kubestellar_status run).context_found = true ∧
    (KubeStellarStatusChecker.check_kubestellar_status run).wds1_namespace =
      KubectlHelper.check_namespace run "wds1-system" c ∧
    (KubeStellarStatusChecker.check_kubestellar_status run).its1_namespace =
      KubectlHelper.check_namespace run "its1-system" c ∧
    (KubeStellarStatusChecker.check_kubestellar_status run).all_ready = false ∧
    (KubeStellarStatusChecker.check_kubestellar_status run).message =
      KubeStellarStatusChecker.partialMessage
        (KubectlHelper.check_namespace run "wds1-system" c)
        (KubectlHelper.check_namespace run "its1-system" c) c := by
  have hnone' : ∀ x ∈ l1 ++ c :: l2,
      KubeStellarStatusChecker.isReady run x = false := by
    rw [h] at hnone; exact hnone
  have hcready : KubeStellarStatusChecker.isReady run c = false :=
    hnone' c (by simp)
  have hwic : (KubectlHelper.check_namespace run "wds1-system" c &&
      KubectlHelper.check_namespace run "its1-system" c) = false := by
    cases h1 : KubectlHelper.check_namespace run "wds1-system" c with
    | false => simp
    | true =>
      cases h2 : KubectlHelper.check_namespace run "its1-system" c with
      | false => simp
      | true =>
        simp [KubeStellarStatusChecker.isReady, hcomp, hacc, h1, h2] at hcready
  obtain ⟨st', e0, e1, e2, e3, e4, e5, e6, l', e7⟩ :=
    KubeStellarStatusChecker.statusLoop_skip run l1 (c :: l2)
      KubeStellarStatusChecker.initStatus hl1
  have hf' : st'.context_found = false := by
    rw [e2]; rfl
  have step : KubeStellarStatusChecker.statusLoop run (c :: l2) st' =
      KubeStellarStatusChecker.statusLoop run l2
        { st' with
          context := c
          context_found := true
          wds1_namespace := KubectlHelper.check_namespace run "wds1-system" c
          its1_namespace := KubectlHelper.check_namespace run "its1-system" c
          message := KubeStellarStatusChecker.partialMessage
            (KubectlHelper.check_namespace run "wds1-system" c)
            (KubectlHelper.check_namespace run "its1-system" c) c
          compatible_contexts := st'.compatible_contexts ++ [c]
          cluster_info := KubeStellarStatusChecker.dictSet c
            (KubectlHelper.get_cluster_info run c).1 st'.cluster_info } := by
    simp [KubeStellarStatusChecker.statusLoop, hcomp, hacc, hwic, hf']
  have hl2 : ∀ x ∈ l2, KubeStellarStatusChecker.isReady run x = false :=
    fun x hx => hnone' x (by simp [hx])
  obtain ⟨p1, p2, p3, p4, p5, p6, l'', p7⟩ :=
    KubeStellarStatusChecker.statusLoop_preserve run l2
      { st' with
        context := c
        context_found := true
        wds1_namespace := KubectlHelper.check_namespace run "wds1-system" c
        its1_namespace := KubectlHelper.check_namespace run "its1-system" c
        message := KubeStellarStatusChecker.partialMessage
          (KubectlHelper.check_namespace run "wds1-system" c)
          (KubectlHelper.check_namespace run "its1-system" c) c
        compatible_contexts := st'.compatible_contexts ++ [c]
        cluster_info := KubeStellarStatusChecker.dictSet c
          (KubectlHelper.get_cluster_info run c).1 st'.cluster_info }
      rfl hl2
  have hfinal : KubeStellarStatusChecker.statusLoop run (l1 ++ c :: l2)
      KubeStellarStatusChecker.initStatus =
      KubeStellarStatusChecker.statusLoop run l2
        { st' with
          context := c
          context_found := true
          wds1_namespace := KubectlHelper.check_namespace run "wds1-system" c
          its1_namespace := KubectlHelper.check_namespace run "its1-system" c
          message := KubeStellarStatusChecker.partialMessage
            (KubectlHelper.check_namespace run "wds1-system" c)
            (KubectlHelper.check_namespace run "its1-system" c) c
          compatible_contexts := st'.compatible_contexts ++ [c]
          cluster_info := KubeStellarStatusChecker.dictSet c
            (KubectlHelper.get_cluster_info run c).1 st'.cluster_info } := by
    rw [e0, step]
  have hne : (KubeStellarStatusChecker.statusLoop run (l1 ++ c :: l2)
      KubeStellarStatusChecker.initStatus).compatible_contexts.isEmpty = false := by
    rw [hfinal]
    rw [p7]
    simp
  have hwrap : KubeStellarStatusChecker.check_kubestellar_status run =
      KubeStellarStatusChecker.statusLoop run (l1 ++ c :: l2)
        KubeStellarStatusChecker.initStatus := by
    simp only [KubeStellarStatusChecker.check_kubestellar_status, h]
    exact if_neg (by simp [hne])
  rw [hwrap, hfinal]
  exact ⟨p1.trans rfl, p2, p3.trans rfl, p4.trans rfl,
    p5.trans (e5.trans rfl), p6.trans rfl⟩

/-- Command environment for the C4 witness: contexts `prod` (not
compatible), `kind-a` (compatible but inaccessible) and `kind-b`
(compatible, accessible, both namespaces present). -/
def runC4w : CmdRun := fun cmd =>
  if cmd = ["kubectl", "config", "get-contexts", "-o=name"] then
    (0, "prod\nkind-a\nkind-b", "")
  else if cmd = ["kubectl", "cluster-info", "--context", "kind-a"] then
    (1, "", "connection refused")
  else if cmd = ["kubectl", "get", "ns", "wds1-system", "--context", "kind-b",
      "--ignore-not-found"] then
    (0, "wds1-system   Active", "")
  else if cmd = ["kubectl", "get", "ns", "its1-system", "--context", "kind-b",
      "--ignore-not-found"] then
    (0, "its1-system   Active", "")
  else (0, "", "")

/-- Witness for C4 at a concrete environment: the first fully ready
context `kind-b` is reported with `all_ready = true`, and the examined
compatible contexts are exactly `kind-a` then `kind-b` — iteration
stopped at `kind-b`. -/
theorem C4_status_checker_find_first_witness :
    (KubeStellarStatusChecker.check_kubestellar_status runC4w).context = "kind-b" ∧
    (KubeStellarStatusChecker.check_kubestellar_status runC4w).all_ready = true ∧
    (KubeStellarStatusChecker.check_kubestellar_status runC4w).context_found = true ∧
    (KubeStellarStatusChecker.check_kubestellar_status runC4w).compatible_contexts =
      List.filter KubeStellarStatusChecker.isCompatible ["prod", "kind-a"] ++
        ["kind-b"] :=
  C4_status_checker_find_first runC4w ["prod", "kind-a"] "kind-b" []
    (by decide) (by decide) (by decide)

/-- Command environment for the C5 witness scenario of the claim:
contexts `kind-foo` and `prod`, with `kind-foo` accessible and having
only `wds1-system`. -/
def runC5w : CmdRun := fun cmd =>
  if cmd = ["kubectl", "config", "get-contexts", "-o=name"] then
    (0, "kind-foo\nprod", "")
  else if cmd = ["kubectl", "get", "ns", "wds1-system", "--context", "kind-foo",
      "--ignore-not-found"] then
    (0, "wds1-system   Active", "")
  else (0, "", "")

/-- Witness for the amended C5 at the claim's own scenario: contexts
`["kind-foo", "prod"]` with `kind-foo` accessible and only `wds1-system`
present give `context = "kind-foo"`, `context_found = true`,
`wds1_namespace = true`, `its1_namespace = false`, `all_ready = false`. -/
theorem C5_amended_first_partial_wins_witness :
    (KubeStellarStatusChecker.check_kubestellar_status runC5w).context =
      "kind-foo" ∧
    (KubeStellarStatusChecker.check_kubestellar_status runC5w).context_found =
      true ∧
    (KubeStellarStatusChecker.check_kubestellar_status runC5w).wds1_namespace =
      KubectlHelper.check_namespace runC5w "wds1-system" "kind-foo" ∧
    (KubeStellarStatusChecker.check_kubestellar_status runC5w).its1_namespace =
      KubectlHelper.check_namespace runC5w "its1-system" "kind-foo" ∧
    (KubeStellarStatusChecker.check_kubestellar_status runC5w).all_ready = false ∧
    (KubeStellarStatusChecker.check_kubestellar_status runC5w).message =
      KubeStellarStatusChecker.partialMessage
        (KubectlHelper.check_namespace runC5w "wds1-system" "kind-foo")
        (KubectlHelper.check_namespace runC5w "its1-system" "kind-foo")
        "kind-foo" :=
  C5_amended_first_partial_wins runC5w [] "kind-foo" ["prod"]
    (by decide) (by decide) (by decide) (by decide) (by decide)

/-! ## tools/kubestellar_status/prerequisites.py — `PrerequisitesChecker`

`check_prerequisites` loops over six tools, recording a per-tool check
dict; a tool missing from `PATH` or failing its version command marks the
run unsatisfied, and the three required tools additionally join
`missing`.  Two follow-up adjustments run while the corresponding tool is
installed: the Go version parse and the Docker liveness probe.  The
environment supplies `shutil.which` and the command triples. -/

namespace PrerequisitesChecker

/-- The per-tool check dict built by `_check_tool`. -/
structure ToolCheck where
  installed : Bool
  version : String
  path : String
  error : String
deriving DecidableEq

/-- Environment of the prerequisites checker: `shutil.which` and the
command world. -/
structure PrereqEnv where
  which : String → Option String
  run : CmdRun

/-- The results dict of `check_prerequisites`; `checks` is an
insertion-ordered association list keyed by tool name. -/
structure PrereqResult where
  all_satisfied : Bool
  checks : List (String × ToolCheck)
  missing : List String
  recommendations : List String
deriving DecidableEq

/-- Embedding of `PrerequisitesChecker._check_tool`: resolve the tool on
`PATH`, then run its version command; on success keep the first line of
the stripped stdout as the version, on failure record
`stderr.strip() or stdout.strip()` as the error. -/
def check_tool (env : PrereqEnv) (tool version_cmd : String) : ToolCheck :=
  match env.which tool with
  | some p =>
    let r := env.run (pySplitWs version_cmd)
    if r.1 == 0 then
      { installed := true
        version := (pySplitNl (pyStrip r.2.1)).headD ""
        path := p
        error := "" }
    else
      { installed := false
        version := ""
        path := p
        error := if pyStrip r.2.2 != "" then pyStrip r.2.2 else pyStrip r.2.1 }
  | none =>
    { installed := false, version := "", path := "", error := tool ++ " not found in PATH" }

/-- The tools the loop iterates, with their version commands, in source
order. -/
def prereqTools : List (String × String) :=
  [("kubectl", "kubectl version --client"),
   ("docker", "docker --version"),
   ("helm", "helm version"),
   ("go", "go version"),
   ("kind", "kind version"),
   ("k3d", "k3d version")]

/-- The required tools whose absence joins the `missing` list. -/
def required_tools : List String := ["kubectl", "docker", "helm"]

/-- The `for tool, version_cmd in tools.items()` loop of
`check_prerequisites`: record every tool's check; a tool that is not
installed clears `all_satisfied` and, when required, joins `missing`. -/
def toolLoop (env : PrereqEnv) : List (String × String) → PrereqResult → PrereqResult
  | [], r => r
  | (tool, cmd) :: rest, r =>
    let c := check_tool env tool cmd
    let r1 := { r with checks := r.checks ++ [(tool, c)] }
    let r2 :=
      if !c.installed then
        { r1 with
          all_satisfied := false
          missing :=
            if required_tools.contains tool then r1.missing ++ [tool] else r1.missing }
      else r1
    toolLoop env rest r2

/-- Python's in-place mutation `results["checks"][k]["error"] = err` on
the association list. -/
def dictUpdateError (k err : String) (l : List (String × ToolCheck)) :
    List (String × ToolCheck) :=
  l.map fun p => if p.1 = k then (p.1, { p.2 with error := err }) else p

/-- The version parse of `_check_go_version`: `version_str.split()[2]`,
strip every `go`, split on `.`, take two components, parse both as ints;
any slip (`IndexError`, unpacking `ValueError`, `int` `ValueError`) is
caught by the surrounding `try` and modelled as `none`. -/
def parseGoVersion (version_str : String) : Option (String × Int × Int) :=
  if pyContains version_str "go" then
    match (pySplitWs version_str).get? 2 with
    | some version_part =>
      let version_num := pyReplace version_part "go" ""
      match (pySplitChar '.' version_num).take 2 with
      | [a, b] =>
        match pyInt a, pyInt b with
        | some major, some minor => some (version_num, major, minor)
        | _, _ => none
      | _ => none
    | none => none
  else none

/-- Embedding of `PrerequisitesChecker._check_go_version`: when Go is
installed and parses to a `1.x` version with `x < 19`, set the go entry's
error, add `go (version 1.19+)` to `missing` and clear `all_satisfied`;
otherwise leave the results untouched. -/
def check_go_version (r : PrereqResult) : PrereqResult :=
  match r.checks.lookup "go" with
  | some go_check =>
    if go_check.installed then
      match parseGoVersion go_check.version with
      | some (version_num, major, minor) =>
        if major == 1 && minor < 19 then
          { r with
            checks := dictUpdateError "go"
              ("Go version " ++ version_num ++ " is too old. Requires Go 1.19+")
              r.checks
            missing := r.missing ++ ["go (version 1.19+)"]
            all_satisfied := false }
        else r
      | none => r
    else r
  | none => r

/-- Embedding of `PrerequisitesChecker._check_docker_running`: a failing
`docker ps` sets the docker entry's error (leaving its `installed` flag
as it was), adds `docker (running)` to `missing` and clears
`all_satisfied`. -/
def check_docker_running (env : PrereqEnv) (r : PrereqResult) : PrereqResult :=
  let pr := env.run ["docker", "ps"]
  if pr.1 != 0 then
    { r with
      checks := dictUpdateError "docker" "Docker is not running or not accessible"
        r.checks
      missing := r.missing ++ ["docker (running)"]
      all_satisfied := false }
  else r

/-- The recommendation `_add_recommendations` derives from one `missing`
entry by substring matching. -/
def recommendationFor (m : String) : Option String :=
  if pyContains m "kubectl" then
    some "Install kubectl: https://kubernetes.io/docs/tasks/tools/install-kubectl/"
  else if pyContains m "docker" then
    some "Install Docker: https://docs.docker.com/get-docker/ or Podman: https://podman.io/getting-started/installation"
  else if pyContains m "helm" then
    some "Install Helm: https://helm.sh/docs/intro/install/"
  else if pyContains m "go" then
    some "Install Go 1.19+: https://golang.org/doc/install"
  else if pyContains m "kind" then
    some "Install kind: https://kind.sigs.k8s.io/docs/user/quick-start/#installation"
  else if pyContains m "k3d" then
    some "Install k3d: https://k3d.io/v5.4.6/#installation"
  else none

/-- Embedding of `PrerequisitesChecker._add_recommendations`. -/
def add_recommendations (r : PrereqResult) : PrereqResult :=
  let recs := r.missing.filterMap recommendationFor
  { r with
    recommendations :=
      if r.missing.isEmpty then
        recs ++
          ["All prerequisites are satisfied! You can proceed with KubeStellar installation."]
      else recs }

/-- The initial results dict of `check_prerequisites`. -/
def initResult : PrereqResult :=
  { all_satisfied := true, checks := [], missing := [], recommendations := [] }

/-- Embedding of `PrerequisitesChecker.check_prerequisites`
(src/tools/kubestellar_status/prerequisites.py, lines 16–56): run the
tool loop, then the Go version check while go is installed, then the
Docker liveness check while docker is installed, then derive the
recommendations. -/
def check_prerequisites (env : PrereqEnv) : PrereqResult :=
  let r1 := toolLoop env prereqTools initResult
  let r2 :=
    if ((r1.checks.lookup "go").map (fun c => c.installed)).getD false then
      check_go_version r1
    else r1
  let r3 :=
    if ((r2.checks.lookup "docker").map (fun c => c.installed)).getD false then
      check_docker_running env r2
    else r2
  add_recommendations r3

end PrerequisitesChecker

/-- Prerequisites environment for the C7 counterexample: every tool is on
`PATH`, every version command succeeds, and only `docker ps` fails. -/
def prereqEnvC7 : PrerequisitesChecker.PrereqEnv :=
  { which := fun t => some ("/usr/local/bin/" ++ t)
    run := fun cmd =>
      if cmd = ["docker", "ps"] then (1, "", "Cannot connect to the Docker daemon")
      else if cmd = ["go", "version"] then (0, "go version go1.21.0 linux/amd64", "")
      else (0, "v1.0.0", "") }

/-- Counterexample to C7 as stated: when `docker --version` succeeds but
`docker ps` fails, the docker check entry keeps `installed = true` (only
its `error` field is set) — not `installed = false` as claimed — and the
`missing` list holds only `docker (running)`, with no plain `docker`
entry; the overall verdict is indeed unsatisfied. -/
theorem C7_docker_running_counterexample :
    (PrerequisitesChecker.check_prerequisites prereqEnvC7).checks.lookup "docker" =
      some { installed := true
             version := "v1.0.0"
             path := "/usr/local/bin/docker"
             error := "Docker is not running or not accessible" } ∧
    (PrerequisitesChecker.check_prerequisites prereqEnvC7).missing =
      ["docker (running)"] ∧
    (PrerequisitesChecker.check_prerequisites prereqEnvC7).all_satisfied = false := by
  decide

namespace PrerequisitesChecker

/-- The tool loop records one check per tool, in order. -/
lemma toolLoop_checks (env : PrereqEnv) :
    ∀ (ts : List (String × String)) (r : PrereqResult),
      (toolLoop env ts r).checks =
        r.checks ++ ts.map fun p => (p.1, check_tool env p.1 p.2) := by
  intro ts
  induction ts with
  | nil => intro r; simp [toolLoop]
  | cons p rest ih =>
    intro r
    obtain ⟨tool, cmd⟩ := p
    simp only [toolLoop]
    rw [ih]
    split <;> simp

/-- The tool loop appends to `missing` exactly the names of the required
tools whose check failed. -/
lemma toolLoop_missing (env : PrereqEnv) :
    ∀ (ts : List (String × String)) (r : PrereqResult),
      (toolLoop env ts r).missing =
        r.missing ++ (ts.filter fun p =>
          !(check_tool env p.1 p.2).installed && required_tools.contains p.1).map
            Prod.fst := by
  intro ts
  induction ts with
  | nil => intro r; simp [toolLoop]
  | cons p rest ih =>
    intro r
    obtain ⟨tool, cmd⟩ := p
    simp only [toolLoop]
    rw [ih]
    by_cases hi : (check_tool env tool cmd).installed = true
    · simp [List.filter_cons, hi]
    · have hi' : (check_tool env tool cmd).installed = false := by simpa using hi
      by_cases hc : tool ∈ required_tools
      · simp [List.filter_cons, hi', hc]
      · simp [List.filter_cons, hi', hc]

/-- Setting the error of the entry keyed `k` leaves lookups of other keys
unchanged. -/
lemma lookup_dictUpdateError_ne (k err k' : String) (h : k' ≠ k) :
    ∀ l : List (String × ToolCheck),
      (dictUpdateError k err l).lookup k' = l.lookup k' := by
  intro l
  induction l with
  | nil => rfl
  | cons p rest ih =>
    obtain ⟨pk, pv⟩ := p
    by_cases hk : pk = k
    · subst hk
      have hhead : dictUpdateError pk err ((pk, pv) :: rest) =
          (pk, { pv with error := err }) :: dictUpdateError pk err rest := by
        simp [dictUpdateError]
      rw [hhead]
      have h1 : (k' == pk) = false := by simp [h]
      simp [List.lookup, h1, ih]
    · have hhead : dictUpdateError k err ((pk, pv) :: rest) =
          (pk, pv) :: dictUpdateError k err rest := by
        simp [dictUpdateError, hk]
      rw [hhead]
      by_cases hkp : k' = pk
      · subst hkp
        simp [List.lookup]
      · have h5 : (k' == pk) = false := by simp [hkp]
        simp [List.lookup, h5, ih]

/-- Setting the error of the entry keyed `k` updates exactly the value
`lookup k` sees. -/
lemma lookup_dictUpdateError_self (k err : String) :
    ∀ l : List (String × ToolCheck),
      (dictUpdateError k err l).lookup k =
        (l.lookup k).map fun c => { c with error := err } := by
  intro l
  induction l with
  | nil => rfl
  | cons p rest ih =>
    obtain ⟨pk, pv⟩ := p
    by_cases hk : pk = k
    · subst hk
      have hhead : dictUpdateError pk err ((pk, pv) :: rest) =
          (pk, { pv with error := err }) :: dictUpdateError pk err rest := by
        simp [dictUpdateError]
      rw [hhead]
      simp [List.lookup]
    · have hhead : dictUpdateError k err ((pk, pv) :: rest) =
          (pk, pv) :: dictUpdateError k err rest := by
        simp [dictUpdateError, hk]
      rw [hhead]
      have h4 : (k == pk) = false := by simp [Ne.symm hk]
      simp [List.lookup, h4, ih]

/-- The Go version adjustment never touches the docker entry and can only
append `go (version 1.19+)` to `missing`. -/
lemma check_go_version_obs (r : PrereqResult) :
    (check_go_version r).checks.lookup "docker" = r.checks.lookup "docker" ∧
    ((check_go_version r).missing = r.missing ∨
      (check_go_version r).missing = r.missing ++ ["go (version 1.19+)"]) := by
  rcases h : r.checks.lookup "go" with _ | gc
  · have hrec : check_go_version r = r := by simp [check_go_version, h]
    rw [hrec]; exact ⟨rfl, Or.inl rfl⟩
  · by_cases hi : gc.installed = true
    · rcases hp : parseGoVersion gc.version with _ | ⟨vn, mj, mn⟩
      · have hrec : check_go_version r = r := by simp [check_go_version, h, hi, hp]
        rw [hrec]; exact ⟨rfl, Or.inl rfl⟩
      · by_cases hv : (mj == 1 && decide (mn < 19)) = true
        · have hrec : check_go_version r =
              { r with
                checks := dictUpdateError "go"
                  ("Go version " ++ vn ++ " is too old. Requires Go 1.19+") r.checks
                missing := r.missing ++ ["go (version 1.19+)"]
                all_satisfied := false } := by
            simp [check_go_version, h, hi, hp, hv]
          rw [hrec]
          exact ⟨lookup_dictUpdateError_ne "go" _ "docker" (by decide) r.checks,
            Or.inr rfl⟩
        · have hv' : (mj == 1 && decide (mn < 19)) = false := by simpa using hv
          have hrec : check_go_version r = r := by
            simp [check_go_version, h, hi, hp, hv']
          rw [hrec]; exact ⟨rfl, Or.inl rfl⟩
    · have hi' : gc.installed = false := by simpa using hi
      have hrec : check_go_version r = r := by simp [check_go_version, h, hi']
      rw [hrec]; exact ⟨rfl, Or.inl rfl⟩

end PrerequisitesChecker

/-- C7 (amended): when `docker` resolves on `PATH`, its version command
succeeds, and the liveness probe `docker ps` fails, the docker check
entry KEEPS `installed = true` and only its `error` field is set to
`Docker is not running or not accessible`; the `missing` list gains the
distinct `docker (running)` entry while containing no plain `docker`
entry; and the overall result is marked unsatisfied. -/
theorem C7_amended_docker_liveness (env : PrerequisitesChecker.PrereqEnv)
    (p : String)
    (hwhich : env.which "docker" = some p)
    (hver : (env.run ["docker", "--version"]).1 = 0)
    (hps : (env.run ["docker", "ps"]).1 ≠ 0) :
    (PrerequisitesChecker.check_prerequisites env).checks.lookup "docker" =
      some { installed := true
             version := (pySplitNl (pyStrip (env.run ["docker", "--version"]).2.1)).headD ""
             path := p
             error := "Docker is not running or not accessible" } ∧
    "docker (running)" ∈ (PrerequisitesChecker.check_prerequisites env).missing ∧
    "docker" ∉ (PrerequisitesChecker.check_prerequisites env).missing ∧
    (PrerequisitesChecker.check_prerequisites env).all_satisfied = false := by
  have hsp : pySplitWs "docker --version" = ["docker", "--version"] := by decide
  have hdock : PrerequisitesChecker.check_tool env "docker" "docker --version" =
      { installed := true
        version := (pySplitNl (pyStrip (env.run ["docker", "--version"]).2.1)).headD ""
        path := p
        error := "" } := by
    simp [PrerequisitesChecker.check_tool, hwhich, hsp, hver]
  have hdk1 : (PrerequisitesChecker.toolLoop env PrerequisitesChecker.prereqTools
      PrerequisitesChecker.initResult).checks.lookup "docker" =
      some (PrerequisitesChecker.check_tool env "docker" "docker --version") := by
    rw [PrerequisitesChecker.toolLoop_checks]
    simp [PrerequisitesChecker.prereqTools, PrerequisitesChecker.initResult,
      List.lookup]
  have hd1 : "docker" ∉ (PrerequisitesChecker.toolLoop env
      PrerequisitesChecker.prereqTools PrerequisitesChecker.initResult).missing := by
    rw [PrerequisitesChecker.toolLoop_missing]
    intro hmem
    simp only [PrerequisitesChecker.initResult, List.nil_append, List.mem_map] at hmem
    obtain ⟨q, hq, hq1⟩ := hmem
    rw [List.mem_filter] at hq
    obtain ⟨hqmem, hqpred⟩ := hq
    fin_cases hqmem <;> simp_all [hdock]
  simp only [PrerequisitesChecker.check_prerequisites]
  set r1 := PrerequisitesChecker.toolLoop env PrerequisitesChecker.prereqTools
    PrerequisitesChecker.initResult with hr1
  set r2 := if ((r1.checks.lookup "go").map fun c => c.installed).getD false then
      PrerequisitesChecker.check_go_version r1
    else r1 with hr2
  have h2obs : r2.checks.lookup "docker" = r1.checks.lookup "docker" ∧
      (r2.missing = r1.missing ∨
        r2.missing = r1.missing ++ ["go (version 1.19+)"]) := by
    rw [hr2]
    split
    · exact PrerequisitesChecker.check_go_version_obs r1
    · exact ⟨rfl, Or.inl rfl⟩
  have hdk2 : r2.checks.lookup "docker" =
      some (PrerequisitesChecker.check_tool env "docker" "docker --version") :=
    h2obs.1.trans hdk1
  have hguard3 : ((r2.checks.lookup "docker").map fun c => c.installed).getD false =
      true := by
    rw [hdk2, hdock]
    rfl
  have hps' : ((env.run ["docker", "ps"]).1 != 0) = true := by
    simpa using hps
  have hr3 : (if ((r2.checks.lookup "docker").map fun c => c.installed).getD false
      then PrerequisitesChecker.check_docker_running env r2 else r2) =
      { r2 with
        checks := PrerequisitesChecker.dictUpdateError "docker"
          "Docker is not running or not accessible" r2.checks
        missing := r2.missing ++ ["docker (running)"]
        all_satisfied := false } := by
    rw [hguard3]
    simp [PrerequisitesChecker.check_docker_running, hps']
  rw [hr3]
  refine ⟨?_, ?_, ?_, rfl⟩
  · show (PrerequisitesChecker.dictUpdateError "docker"
      "Docker is not running or not accessible" r2.checks).lookup "docker" = _
    rw [PrerequisitesChecker.lookup_dictUpdateError_self, hdk2, hdock]
    rfl
  · show "docker (running)" ∈ r2.missing ++ ["docker (running)"]
    simp
  · show "docker" ∉ r2.missing ++ ["docker (running)"]
    intro hmem
    rcases List.mem_append.mp hmem with hmem | hmem
    · rcases h2obs.2 with h2 | h2
      · rw [h2] at hmem
        exact hd1 hmem
      · rw [h2] at hmem
        rcases List.mem_append.mp hmem with hmem | hmem
        · exact hd1 hmem
        · simp at hmem
    · simp at hmem

/-- Prerequisites environment for the amended C7 witness: identical to
the counterexample environment (all tools installed, only `docker ps`
failing). -/
def prereqEnvC7w : PrerequisitesChecker.PrereqEnv :=
  { which := fun t => some ("/usr/bin/" ++ t)
    run := fun cmd =>
      if cmd = ["docker", "ps"] then (1, "", "permission denied")
      else (0, "tool version 1.2.3", "") }

/-- Witness for the amended C7 at a concrete environment. -/
theorem C7_amended_docker_liveness_witness :
    (PrerequisitesChecker.check_prerequisites prereqEnvC7w).checks.lookup "docker" =
      some { installed := true
             version := (pySplitNl (pyStrip
               (prereqEnvC7w.run ["docker", "--version"]).2.1)).headD ""
             path := "/usr/bin/docker"
             error := "Docker is not running or not accessible" } ∧
    "docker (running)" ∈ (PrerequisitesChecker.check_prerequisites prereqEnvC7w).missing ∧
    "docker" ∉ (PrerequisitesChecker.check_prerequisites prereqEnvC7w).missing ∧
    (PrerequisitesChecker.check_prerequisites prereqEnvC7w).all_satisfied = false :=
  C7_amended_docker_liveness prereqEnvC7w "/usr/bin/docker"
    (by decide) (by decide) (by decide)

/-! ## tools/kubestellar_status/demo_environment.py — `DemoEnvironmentManager`

`create_demo_environment` downloads the official setup script into a
`NamedTemporaryFile(delete=False)`, marks it executable, runs it, and
unlinks it at the end; the embedding additionally returns whether the
transient script file still exists when the operation returns.
`cleanup_demo_environment` best-effort deletes the three demo clusters
and two kubectl contexts; the embedding additionally returns the list of
commands issued. -/

namespace DemoEnvironmentManager

/-- Default of `settings.kubestellar_version` (src/config/settings.py). -/
def kubestellar_version : String := "0.27.2"

/-- The download URL of the demo setup script. -/
def script_url : String :=
  "https://raw.githubusercontent.com/kubestellar/kubestellar/refs/tags/v" ++
    kubestellar_version ++ "/scripts/create-kubestellar-demo-env.sh"

/-- The result dict of `create_demo_environment`. -/
structure CreateResult where
  success : Bool
  platform : String
  message : String
  clusters_created : List String
  contexts_created : List String
  script_output : String
  next_steps : List String
deriving DecidableEq

/-- Environment of `create_demo_environment`: the command world, the name
the temporary file receives, and whether the final `Path.unlink`
succeeds (its failure is caught and only logged). -/
structure CreateEnv where
  run : CmdRun
  tempName : String
  unlinkOk : Bool

/-- Embedding of `DemoEnvironmentManager.create_demo_environment`
(src/tools/kubestellar_status/demo_environment.py, lines 19–99).  The
second component of the result records whether the transient script file
still exists on disk when the function returns: the file is created on
entering the `with NamedTemporaryFile(delete=False)` block, and the only
removal is the `Path(script_path).unlink()` after the script run — the
early `return` on a failed download leaves the file in place. -/
def create_demo_environment (env : CreateEnv) (platform : String) :
    CreateResult × Bool :=
  let base : CreateResult :=
    { success := false
      platform := platform
      message := ""
      clusters_created := []
      contexts_created := []
      script_output := ""
      next_steps := [] }
  if platform = "kind" ∨ platform = "k3d" then
    let dl := env.run ["curl", "-s", script_url]
    if dl.1 != 0 then
      ({ base with message := "Failed to download demo script: " ++ dl.2.2 }, true)
    else
      let _chmod := env.run ["chmod", "+x", env.tempName]
      let r := env.run ["bash", env.tempName, "--platform", platform]
      let result :=
        if r.1 == 0 then
          { base with
            success := true
            message := "Demo environment created successfully!"
            script_output := r.2.1 ++ r.2.2
            clusters_created := ["kubeflex", "cluster1", "cluster2"]
            contexts_created :=
              [platform ++ "-kubeflex", "cluster1", "cluster2", "wds1", "its1"]
            next_steps :=
              ["Set environment variables as shown in script output",
               "Try the example scenarios from KubeStellar documentation",
               "Use \x27get_cluster_info\x27 tool to verify cluster status"] }
        else
          { base with
            script_output := r.2.1 ++ r.2.2
            message := "Demo environment creation failed with return code " ++
              toString r.1 }
      (result, !env.unlinkOk)
  else
    ({ base with
      message := "Unsupported platform: " ++ platform ++ ". Use \x27kind\x27 or \x27k3d\x27" },
     false)

/-- The result dict of `cleanup_demo_environment`. -/
structure CleanupResult where
  success : Bool
  platform : String
  cleaned_clusters : List String
  cleaned_contexts : List String
  errors : List String
deriving DecidableEq

/-- The demo clusters the cleanup deletes, in order. -/
def demoClusters : List String := ["kubeflex", "cluster1", "cluster2"]

/-- The cluster-deletion command for a platform (the loop body selects
`kind delete cluster --name <c>` or `k3d cluster delete <c>`). -/
def clusterDeleteCmd (platform cluster : String) : List String :=
  if platform = "kind" then ["kind", "delete", "cluster", "--name", cluster]
  else ["k3d", "cluster", "delete", cluster]

/-- The context-deletion command of the cleanup's second loop. -/
def contextDeleteCmd (context : String) : List String :=
  ["kubectl", "config", "delete-context", context]

/-- The `for cluster in clusters` loop of `cleanup_demo_environment`:
every deletion is attempted; a success joins `cleaned_clusters`, a
failure appends a message to `errors`, and the loop never aborts.  The
trace component records the commands issued. -/
def clusterLoop (run : CmdRun) (platform : String) :
    List String → CleanupResult × List (List String) →
      CleanupResult × List (List String)
  | [], acc => acc
  | cluster :: rest, (r, tr) =>
    let cmd := clusterDeleteCmd platform cluster
    let res := run cmd
    let r1 :=
      if res.1 == 0 then
        { r with cleaned_clusters := r.cleaned_clusters ++ [cluster] }
      else
        { r with errors :=
            r.errors ++ ["Failed to delete cluster " ++ cluster ++ ": " ++ res.2.2] }
    clusterLoop run platform rest (r1, tr ++ [cmd])

/-- The `for context in contexts_to_clean` loop of
`cleanup_demo_environment`: deletion failures are only logged — they
touch neither `errors` nor `success`. -/
def contextLoop (run : CmdRun) :
    List String → CleanupResult × List (List String) →
      CleanupResult × List (List String)
  | [], acc => acc
  | context :: rest, (r, tr) =>
    let cmd := contextDeleteCmd context
    let res := run cmd
    let r1 :=
      if res.1 == 0 then
        { r with cleaned_contexts := r.cleaned_contexts ++ [context] }
      else r
    contextLoop run rest (r1, tr ++ [cmd])

/-- Embedding of `DemoEnvironmentManager.cleanup_demo_environment`
(src/tools/kubestellar_status/demo_environment.py, lines 101–149).  For a
platform other than `kind` / `k3d` the first loop iteration reads the
never-assigned `returncode`, raising `UnboundLocalError`, which the
blanket `except` converts into a failed result whose message we model as
the constant below. -/
def cleanup_demo_environment (run : CmdRun) (platform : String) :
    CleanupResult × List (List String) :=
  let r0 : CleanupResult :=
    { success := true
      platform := platform
      cleaned_clusters := []
      cleaned_contexts := []
      errors := [] }
  if platform = "kind" ∨ platform = "k3d" then
    let a1 := clusterLoop run platform demoClusters (r0, [])
    let a2 := contextLoop run ["cluster1", "cluster2"] a1
    let r2 := a2.1
    let r3 :=
      if !r2.errors.isEmpty then
        { r2 with success := decide (r2.errors.length < demoClusters.length) }
      else r2
    (r3, a2.2)
  else
    ({ r0 with
      success := false
      errors := ["local variable \x27returncode\x27 referenced before assignment"] },
     [])

/-- What the cluster loop does, spelled out: trace extended by one
command per cluster, `cleaned_clusters` extended by the successes,
`errors` extended by one message per failure, everything else
unchanged. -/
lemma clusterLoop_spec (run : CmdRun) (platform : String) :
    ∀ (cs : List String) (r : CleanupResult) (tr : List (List String)),
      (clusterLoop run platform cs (r, tr)).2 =
        tr ++ cs.map (clusterDeleteCmd platform) ∧
      (clusterLoop run platform cs (r, tr)).1.errors =
        r.errors ++ (cs.filter fun c =>
          (run (clusterDeleteCmd platform c)).1 != 0).map
            (fun c => "Failed to delete cluster " ++ c ++ ": " ++
              (run (clusterDeleteCmd platform c)).2.2) ∧
      (clusterLoop run platform cs (r, tr)).1.cleaned_clusters =
        r.cleaned_clusters ++ cs.filter
          (fun c => (run (clusterDeleteCmd platform c)).1 == 0) ∧
      (clusterLoop run platform cs (r, tr)).1.success = r.success ∧
      (clusterLoop run platform cs (r, tr)).1.cleaned_contexts =
        r.cleaned_contexts ∧
      (clusterLoop run platform cs (r, tr)).1.platform = r.platform := by
  intro cs
  induction cs with
  | nil => intro r tr; simp [clusterLoop]
  | cons c rest ih =>
    intro r tr
    by_cases hc : ((run (clusterDeleteCmd platform c)).1 == 0) = true
    · have hceq : (run (clusterDeleteCmd platform c)).1 = 0 := by simpa using hc
      have step : clusterLoop run platform (c :: rest) (r, tr) =
          clusterLoop run platform rest
            ({ r with cleaned_clusters := r.cleaned_clusters ++ [c] },
             tr ++ [clusterDeleteCmd platform c]) := by
        simp [clusterLoop, hc]
      rw [step]
      obtain ⟨e1, e2, e3, e4, e5, e6⟩ := ih _ _
      exact ⟨by rw [e1]; simp [List.filter_cons, hc, hceq],
        by rw [e2]; simp [List.filter_cons, hc, hceq],
        by rw [e3]; simp [List.filter_cons, hc, hceq], e4, e5, e6⟩
    · have hc' : ((run (clusterDeleteCmd platform c)).1 == 0) = false := by
        simpa using hc
      have hcne : ¬(run (clusterDeleteCmd platform c)).1 = 0 := by
        simpa using hc'
      have hc2 : ((run (clusterDeleteCmd platform c)).1 != 0) = true := by
        simp [bne, hc']
      have step : clusterLoop run platform (c :: rest) (r, tr) =
          clusterLoop run platform rest
            ({ r with errors := r.errors ++
                ["Failed to delete cluster " ++ c ++ ": " ++
                  (run (clusterDeleteCmd platform c)).2.2] },
             tr ++ [clusterDeleteCmd platform c]) := by
        simp [clusterLoop, hc']
      rw [step]
      obtain ⟨e1, e2, e3, e4, e5, e6⟩ := ih _ _
      exact ⟨by rw [e1]; simp [List.filter_cons, hc2, hcne],
        by rw [e2]; simp [List.filter_cons, hc', hc2, hcne],
        by rw [e3]; simp [List.filter_cons, hc', hcne], e4, e5, e6⟩

/-- What the context loop does, spelled out: trace extended by one
command per context, `cleaned_contexts` extended by the successes,
`errors` and `success` (and the cluster list) untouched. -/
lemma contextLoop_spec (run : CmdRun) :
    ∀ (cs : List String) (r : CleanupResult) (tr : List (List String)),
      (contextLoop run cs (r, tr)).2 = tr ++ cs.map contextDeleteCmd ∧
      (contextLoop run cs (r, tr)).1.errors = r.errors ∧
      (contextLoop run cs (r, tr)).1.success = r.success ∧
      (contextLoop run cs (r, tr)).1.cleaned_clusters = r.cleaned_clusters ∧
      (contextLoop run cs (r, tr)).1.cleaned_contexts =
        r.cleaned_contexts ++ cs.filter
          (fun c => (run (contextDeleteCmd c)).1 == 0) ∧
      (contextLoop run cs (r, tr)).1.platform = r.platform := by
  intro cs
  induction cs with
  | nil => intro r tr; simp [contextLoop]
  | cons c rest ih =>
    intro r tr
    by_cases hc : ((run (contextDeleteCmd c)).1 == 0) = true
    · have hceq : (run (contextDeleteCmd c)).1 = 0 := by simpa using hc
      have step : contextLoop run (c :: rest) (r, tr) =
          contextLoop run rest
            ({ r with cleaned_contexts := r.cleaned_contexts ++ [c] },
             tr ++ [contextDeleteCmd c]) := by
        simp [contextLoop, hc]
      rw [step]
      obtain ⟨e1, e2, e3, e4, e5, e6⟩ := ih _ _
      exact ⟨by rw [e1]; simp, e2, e3, e4,
        by rw [e5]; simp [List.filter_cons, hc, hceq], e6⟩
    · have hc' : ((run (contextDeleteCmd c)).1 == 0) = false := by simpa using hc
      have hcne : ¬(run (contextDeleteCmd c)).1 = 0 := by simpa using hc'
      have step : contextLoop run (c :: rest) (r, tr) =
          contextLoop run rest (r, tr ++ [contextDeleteCmd c]) := by
        simp [contextLoop, hc']
      rw [step]
      obtain ⟨e1, e2, e3, e4, e5, e6⟩ := ih _ _
      exact ⟨by rw [e1]; simp, e2, e3, e4,
        by rw [e5]; simp [List.filter_cons, hc', hcne], e6⟩

end DemoEnvironmentManager

namespace DemoEnvironmentManager

/-- Full characterisation of a cleanup run on a supported platform: the
five commands issued in order, the errors and cleaned lists as filters of
the per-command results, and `success` as the count-based verdict. -/
lemma cleanup_obs (run : CmdRun) (platform : String)
    (hp : platform = "kind" ∨ platform = "k3d") :
    (cleanup_demo_environment run platform).2 =
      demoClusters.map (clusterDeleteCmd platform) ++
        ["cluster1", "cluster2"].map contextDeleteCmd ∧
    (cleanup_demo_environment run platform).1.errors =
      (demoClusters.filter fun c =>
        (run (clusterDeleteCmd platform c)).1 != 0).map
          (fun c => "Failed to delete cluster " ++ c ++ ": " ++
            (run (clusterDeleteCmd platform c)).2.2) ∧
    (cleanup_demo_environment run platform).1.cleaned_clusters =
      demoClusters.filter (fun c => (run (clusterDeleteCmd platform c)).1 == 0) ∧
    (cleanup_demo_environment run platform).1.cleaned_contexts =
      ["cluster1", "cluster2"].filter
        (fun c => (run (contextDeleteCmd c)).1 == 0) ∧
    (cleanup_demo_environment run platform).1.success =
      decide ((demoClusters.filter fun c =>
        (run (clusterDeleteCmd platform c)).1 != 0).length < 3) := by
  obtain ⟨c1, c2, c3, c4, c5, c6⟩ := clusterLoop_spec run platform demoClusters
    { success := true, platform := platform, cleaned_clusters := [],
      cleaned_contexts := [], errors := [] } []
  rcases hA : clusterLoop run platform demoClusters
    ({ success := true, platform := platform, cleaned_clusters := [],
       cleaned_contexts := [], errors := [] }, []) with ⟨r1, t1⟩
  rw [hA] at c1 c2 c3 c4 c5 c6
  dsimp only at c1 c2 c3 c4 c5 c6
  obtain ⟨d1, d2, d3, d4, d5, d6⟩ := contextLoop_spec run ["cluster1", "cluster2"]
    r1 t1
  rcases hB : contextLoop run ["cluster1", "cluster2"] (r1, t1) with ⟨r2, t2⟩
  rw [hB] at d1 d2 d3 d4 d5 d6
  dsimp only at d1 d2 d3 d4 d5 d6
  have hmain : cleanup_demo_environment run platform =
      (if !r2.errors.isEmpty then
        { r2 with success := decide (r2.errors.length < demoClusters.length) }
       else r2, t2) := by
    simp only [cleanup_demo_environment, if_pos hp, hA, hB]
  rw [hmain]
  have herr : r2.errors = (demoClusters.filter fun c =>
      (run (clusterDeleteCmd platform c)).1 != 0).map
        (fun c => "Failed to delete cluster " ++ c ++ ": " ++
          (run (clusterDeleteCmd platform c)).2.2) := by
    rw [d2, c2]; simp
  refine ⟨?_, ?_, ?_, ?_, ?_⟩
  · show t2 = _
    rw [d1, c1]; simp
  · show (if !r2.errors.isEmpty then
        { r2 with success := decide (r2.errors.length < demoClusters.length) }
       else r2).errors = _
    split <;> simpa using herr
  · show (if !r2.errors.isEmpty then
        { r2 with success := decide (r2.errors.length < demoClusters.length) }
       else r2).cleaned_clusters = _
    have : r2.cleaned_clusters = demoClusters.filter
        (fun c => (run (clusterDeleteCmd platform c)).1 == 0) := by
      rw [d4, c3]; simp
    split <;> simpa using this
  · show (if !r2.errors.isEmpty then
        { r2 with success := decide (r2.errors.length < demoClusters.length) }
       else r2).cleaned_contexts = _
    have : r2.cleaned_contexts = ["cluster1", "cluster2"].filter
        (fun c => (run (contextDeleteCmd c)).1 == 0) := by
      rw [d5, c5]; simp
    split <;> simpa using this
  · show (if !r2.errors.isEmpty then
        { r2 with success := decide (r2.errors.length < demoClusters.length) }
       else r2).success = _
    by_cases hE : r2.errors.isEmpty = true
    · have hnil : r2.errors = [] := by simpa using hE
      have hfilnil : (demoClusters.filter fun c =>
          (run (clusterDeleteCmd platform c)).1 != 0) = [] := by
        have := herr.symm.trans hnil
        exact List.map_eq_nil_iff.mp this
      rw [if_neg (by simp [hE])]
      rw [d3, c4]
      simp [hfilnil]
    · have hE' : r2.errors.isEmpty = false := by simpa using hE
      rw [if_pos (by simp [hE'])]
      show decide (r2.errors.length < demoClusters.length) = _
      rw [herr]
      simp [demoClusters]
end DemoEnvironmentManager

/-- C8: on a supported platform, a cleanup run issues all three cluster
deletions and both context deletions (in order, never aborting on a
failure), records one error per failed cluster deletion, and reports
`success = true` exactly when the failures number strictly fewer than the
three clusters. -/
theorem C8_cleanup_majority_success (run : CmdRun) (platform : String)
    (hp : platform = "kind" ∨ platform = "k3d") :
    (DemoEnvironmentManager.cleanup_demo_environment run platform).2 =
      [DemoEnvironmentManager.clusterDeleteCmd platform "kubeflex",
       DemoEnvironmentManager.clusterDeleteCmd platform "cluster1",
       DemoEnvironmentManager.clusterDeleteCmd platform "cluster2",
       DemoEnvironmentManager.contextDeleteCmd "cluster1",
       DemoEnvironmentManager.contextDeleteCmd "cluster2"] ∧
    (DemoEnvironmentManager.cleanup_demo_environment run platform).1.errors.length =
      (DemoEnvironmentManager.demoClusters.filter fun c =>
        (run (DemoEnvironmentManager.clusterDeleteCmd platform c)).1 != 0).length ∧
    ((DemoEnvironmentManager.cleanup_demo_environment run platform).1.success = true ↔
      (DemoEnvironmentManager.cleanup_demo_environment run platform).1.errors.length
        < 3) := by
  obtain ⟨h1, h2, h3, h4, h5⟩ := DemoEnvironmentManager.cleanup_obs run platform hp
  refine ⟨?_, ?_, ?_⟩
  · rw [h1]; simp [DemoEnvironmentManager.demoClusters]
  · rw [h2]; simp
  · rw [h5, h2]
    simp
/-- Command environment for the C8 witness: deleting `kubeflex` and
`cluster1` fails, deleting `cluster2` succeeds. -/
def runC8 : CmdRun := fun cmd =>
  if cmd = ["kind", "delete", "cluster", "--name", "kubeflex"] then
    (1, "", "no such cluster")
  else if cmd = ["kind", "delete", "cluster", "--name", "cluster1"] then
    (1, "", "docker not running")
  else (0, "", "")

/-- Witness for C8: with exactly 2 of the 3 cluster deletions failing,
the cleanup still reports `success = true` while `errors` has exactly two
entries, and all five deletion commands were issued. -/
theorem C8_cleanup_majority_success_witness :
    (DemoEnvironmentManager.cleanup_demo_environment runC8 "kind").1.errors.length
      = 2 ∧
    (DemoEnvironmentManager.cleanup_demo_environment runC8 "kind").1.success
      = true ∧
    ((DemoEnvironmentManager.cleanup_demo_environment runC8 "kind").2 =
      [DemoEnvironmentManager.clusterDeleteCmd "kind" "kubeflex",
       DemoEnvironmentManager.clusterDeleteCmd "kind" "cluster1",
       DemoEnvironmentManager.clusterDeleteCmd "kind" "cluster2",
       DemoEnvironmentManager.contextDeleteCmd "cluster1",
       DemoEnvironmentManager.contextDeleteCmd "cluster2"] ∧
     (DemoEnvironmentManager.cleanup_demo_environment runC8 "kind").1.errors.length =
      (DemoEnvironmentManager.demoClusters.filter fun c =>
        (runC8 (DemoEnvironmentManager.clusterDeleteCmd "kind" c)).1 != 0).length ∧
     ((DemoEnvironmentManager.cleanup_demo_environment runC8 "kind").1.success = true ↔
      (DemoEnvironmentManager.cleanup_demo_environment runC8 "kind").1.errors.length
        < 3)) :=
  ⟨by decide, by decide, C8_cleanup_majority_success runC8 "kind" (Or.inl rfl)⟩

/-- C10: context-deletion failures are invisible in `errors` and
`success`: two runs agreeing on the three cluster deletions produce the
same `errors`, `success` and `cleaned_clusters` whatever the context
deletions do; and a run whose cluster deletions all succeed while both
context deletions fail still returns `success = true` with empty
`errors`, the failed contexts being absent from `cleaned_contexts`. -/
theorem C10_cleanup_context_failures_unrecorded (run1 run2 : CmdRun)
    (platform : String) (hp : platform = "kind" ∨ platform = "k3d")
    (hagree : ∀ c ∈ DemoEnvironmentManager.demoClusters,
      run1 (DemoEnvironmentManager.clusterDeleteCmd platform c) =
        run2 (DemoEnvironmentManager.clusterDeleteCmd platform c)) :
    ((DemoEnvironmentManager.cleanup_demo_environment run1 platform).1.errors =
      (DemoEnvironmentManager.cleanup_demo_environment run2 platform).1.errors ∧
     (DemoEnvironmentManager.cleanup_demo_environment run1 platform).1.success =
      (DemoEnvironmentManager.cleanup_demo_environment run2 platform).1.success ∧
     (DemoEnvironmentManager.cleanup_demo_environment run1 platform).1.cleaned_clusters =
      (DemoEnvironmentManager.cleanup_demo_environment run2 platform).1.cleaned_clusters) ∧
    ((∀ c ∈ DemoEnvironmentManager.demoClusters,
        (run1 (DemoEnvironmentManager.clusterDeleteCmd platform c)).1 = 0) →
      (∀ ctx ∈ (["cluster1", "cluster2"] : List String),
        (run1 (DemoEnvironmentManager.contextDeleteCmd ctx)).1 ≠ 0) →
      (DemoEnvironmentManager.cleanup_demo_environment run1 platform).1.success
        = true ∧
      (DemoEnvironmentManager.cleanup_demo_environment run1 platform).1.errors
        = [] ∧
      (DemoEnvironmentManager.cleanup_demo_environment run1 platform).1.cleaned_contexts
        = []) := by
  obtain ⟨a1, a2, a3, a4, a5⟩ := DemoEnvironmentManager.cleanup_obs run1 platform hp
  obtain ⟨b1, b2, b3, b4, b5⟩ := DemoEnvironmentManager.cleanup_obs run2 platform hp
  have hfil : (DemoEnvironmentManager.demoClusters.filter fun c =>
      (run1 (DemoEnvironmentManager.clusterDeleteCmd platform c)).1 != 0) =
      (DemoEnvironmentManager.demoClusters.filter fun c =>
        (run2 (DemoEnvironmentManager.clusterDeleteCmd platform c)).1 != 0) :=
    List.filter_congr fun c hc => by rw [hagree c hc]
  have hfil2 : (DemoEnvironmentManager.demoClusters.filter fun c =>
      (run1 (DemoEnvironmentManager.clusterDeleteCmd platform c)).1 == 0) =
      (DemoEnvironmentManager.demoClusters.filter fun c =>
        (run2 (DemoEnvironmentManager.clusterDeleteCmd platform c)).1 == 0) :=
    List.filter_congr fun c hc => by rw [hagree c hc]
  refine ⟨⟨?_, ?_, ?_⟩, ?_⟩
  · rw [a2, b2, hfil]
    refine List.map_congr_left fun c hc => ?_
    rw [hagree c (List.mem_of_mem_filter hc)]
  · rw [a5, b5, hfil]
  · rw [a3, b3, hfil2]
  · intro hok hctx
    have hfilnil : (DemoEnvironmentManager.demoClusters.filter fun c =>
        (run1 (DemoEnvironmentManager.clusterDeleteCmd platform c)).1 != 0) = [] := by
      rw [List.filter_eq_nil_iff]
      intro c hc
      simp [hok c hc]
    have hctxnil : ((["cluster1", "cluster2"] : List String).filter fun c =>
        (run1 (DemoEnvironmentManager.contextDeleteCmd c)).1 == 0) = [] := by
      rw [List.filter_eq_nil_iff]
      intro c hc
      simp [hctx c hc]
    refine ⟨?_, ?_, ?_⟩
    · rw [a5, hfilnil]; rfl
    · rw [a2, hfilnil]; rfl
    · rw [a4, hctxnil]

/-- Command environment for the C10 witness: every cluster deletion
succeeds, both context deletions fail. -/
def runC10 : CmdRun := fun cmd =>
  if cmd = ["kubectl", "config", "delete-context", "cluster1"] then
    (1, "", "context not found")
  else if cmd = ["kubectl", "config", "delete-context", "cluster2"] then
    (1, "", "context not found")
  else (0, "", "")

/-- Witness for C10 at a concrete environment: all cluster deletions
succeed and both context deletions fail, yet `success = true`, `errors`
is empty, and the failed contexts are absent from `cleaned_contexts`. -/
theorem C10_cleanup_context_failures_unrecorded_witness :
    (DemoEnvironmentManager.cleanup_demo_environment runC10 "kind").1.success
      = true ∧
    (DemoEnvironmentManager.cleanup_demo_environment runC10 "kind").1.errors
      = [] ∧
    (DemoEnvironmentManager.cleanup_demo_environment runC10 "kind").1.cleaned_contexts
      = [] :=
  (C10_cleanup_context_failures_unrecorded runC10 runC10 "kind" (Or.inl rfl)
    (fun _ _ => rfl)).2 (by decide) (by decide)

/-- Create-environment for the C9 counterexample: the script download
(`curl`) fails; everything else would succeed, including the unlink had
it been attempted. -/
def createEnvC9 : DemoEnvironmentManager.CreateEnv :=
  { run := fun cmd =>
      if cmd = ["curl", "-s", DemoEnvironmentManager.script_url] then
        (1, "", "network unreachable")
      else (0, "", "")
    tempName := "/tmp/tmp1a2b3c.sh"
    unlinkOk := true }

/-- Counterexample to C9 as stated: on a supported platform with a failed
download, `create_demo_environment` returns early from inside the `with`
block, before the `Path(script_path).unlink()` line, and the transient
script file (created with `delete=False`) is left behind — the second
component `true` says the file still exists on return, even though the
unlink itself would have succeeded. -/
theorem C9_transient_script_counterexample :
    DemoEnvironmentManager.create_demo_environment createEnvC9 "kind" =
      ({ success := false
         platform := "kind"
         message := "Failed to download demo script: network unreachable"
         clusters_created := []
         contexts_created := []
         script_output := ""
         next_steps := [] }, true) := by
  decide

/-- C9 (amended): on a supported platform, the transient script file is
removed before return whenever the download succeeded (and the unlink
itself succeeds), regardless of the chmod and script-execution outcomes;
but when the download fails, the operation returns early and the
transient file is left behind. -/
theorem C9_amended_script_cleanup (env : DemoEnvironmentManager.CreateEnv)
    (platform : String) (hp : platform = "kind" ∨ platform = "k3d") :
    ((env.run ["curl", "-s", DemoEnvironmentManager.script_url]).1 = 0 →
      env.unlinkOk = true →
      (DemoEnvironmentManager.create_demo_environment env platform).2 = false) ∧
    ((env.run ["curl", "-s", DemoEnvironmentManager.script_url]).1 ≠ 0 →
      (DemoEnvironmentManager.create_demo_environment env platform).2 = true) := by
  constructor
  · intro h hu
    have hdl : ((env.run ["curl", "-s", DemoEnvironmentManager.script_url]).1 != 0)
        = false := by simp [h]
    simp [DemoEnvironmentManager.create_demo_environment, if_pos hp, hdl, hu]
  · intro h
    have hdl : ((env.run ["curl", "-s", DemoEnvironmentManager.script_url]).1 != 0)
        = true := by simpa using h
    simp [DemoEnvironmentManager.create_demo_environment, if_pos hp, hdl]

/-- Create-environment for the amended C9 witness: the download and chmod
succeed, the script run fails, and the unlink succeeds. -/
def createEnvC9w : DemoEnvironmentManager.CreateEnv :=
  { run := fun cmd =>
      if cmd = ["bash", "/tmp/tmp9z8y7x.sh", "--platform", "kind"] then
        (1, "", "script failed")
      else (0, "", "")
    tempName := "/tmp/tmp9z8y7x.sh"
    unlinkOk := true }

/-- Witness for the amended C9: with a successful download and a failing
script execution, the transient file is nevertheless removed before the
operation returns. -/
theorem C9_amended_script_cleanup_witness :
    (DemoEnvironmentManager.create_demo_environment createEnvC9w "kind").2 = false :=
  (C9_amended_script_cleanup createEnvC9w "kind" (Or.inl rfl)).1 (by decide) rfl
